import Mathlib

/-!
Verification of the SHRDLU-blocks core (geometry, physical-object predicates and
the grasper controller) against its natural-language specification.

Modelling conventions
- Python floats are modelled as exact rational numbers.  Since the library `Rat`
  operations do not reduce inside the kernel, we use an explicit fraction
  representation `Q` (integer numerator and denominator, not normalised); all
  comparisons are integer cross-multiplications, so every definition evaluates
  by `decide`.  All numeric literals of the source are exact decimal fractions.
- `x ** 0.5 <= tol` (the only square root in the source, in
  `Controller.lower_grasper`) is translated by the exact algebraic equivalence
  `sqrt s <= t  <->  0 <= t /\ s <= t^2` (for `s >= 0`, which holds of a sum of
  squares).
- `triangle_area` is only ever invoked (via `PhysicalObject.is_below_point`) on
  points whose z coordinate is 0: `is_below_point` projects every point to the
  z = 0 plane first.  For such points the source formula
  `0.5 * sqrt((ab.y*ac.z - ab.z*ac.y)^2 + (ab.z*ac.x - ab.x*ac.z)^2 + (ab.x*ac.y - ab.y*ac.x)^2)`
  has its first two cross terms equal to 0, and the square root of the
  remaining square is an absolute value, so the area is the exact rational
  `0.5 * |ab.x*ac.y - ab.y*ac.x|`.
- Python dicts of tags are modelled as a structure of `Option` fields, one per
  tag key read or written by the embedded code.  Every read in the source goes
  through `dict.get(key, default)`, and the code never distinguishes a key
  stored with value `None` from an absent key, so `none` models both.  The
  purely descriptive tags (`color`, `size`, `height`, `width`, `created`),
  which no embedded code path reads, are omitted.
- Python object references into the scene are modelled as indices into the
  scene's object list; mutation is modelled by functional update at an index,
  performed in the same order as the source's statements (so aliasing two
  references to one object is handled correctly).
- Exceptions: `UnmetConditionError` is `CmdErr.unmet` (with the source's
  message); uncatchable Python faults (`AttributeError` from calling `.z` on a
  `None` highest point, a failing `assert`) are `CmdErr.pyFault`.  `TypeError`
  on malformed argument types cannot arise in the typed embedding (ids are
  `Int`, coordinates are `Q`); in the source those checks run before any state
  is touched.  A failing command returns the state as it is at the moment the
  exception is raised, so that atomicity is a provable property rather than a
  modelling assumption.
-/

set_option maxRecDepth 100000

/-- Exact fraction representation of a Python float: an integer numerator and
denominator.  Fractions are never normalised; all comparisons cross-multiply,
which keeps every operation a kernel-computable `Int` operation.  Every
fraction the embedded code constructs has a positive denominator. -/
structure Q where
  num : Int
  den : Int
deriving Repr, DecidableEq

namespace Q

/-- Embed an integer literal. -/
def ofInt (n : Int) : Q := ⟨n, 1⟩

/-- Addition of fractions: `a/b + c/d = (a*d + c*b)/(b*d)`. -/
def add (x y : Q) : Q := ⟨x.num * y.den + y.num * x.den, x.den * y.den⟩

/-- Subtraction of fractions. -/
def sub (x y : Q) : Q := ⟨x.num * y.den - y.num * x.den, x.den * y.den⟩

/-- Negation. -/
def neg (x : Q) : Q := ⟨-x.num, x.den⟩

/-- Multiplication of fractions. -/
def mul (x y : Q) : Q := ⟨x.num * y.num, x.den * y.den⟩

/-- Division of fractions (the embedded code only ever divides by nonzero
constants). -/
def div (x y : Q) : Q := ⟨x.num * y.den, x.den * y.num⟩

/-- Absolute value: `|n/d| = |n|/|d|`, correct for either sign of the
denominator. -/
def abs (x : Q) : Q := ⟨|x.num|, |x.den|⟩

/-- Value equality of fractions (Python float `==`): cross-multiplication,
correct for either sign of the denominators. -/
def beq (x y : Q) : Bool := x.num * y.den == y.num * x.den

/-- Value ordering (Python float `<=`): `n1/d1 <= n2/d2` iff
`(n1*d2 - n2*d1) * (d1*d2) <= 0`, obtained by multiplying through by the
positive `(d1*d2)^2`; correct for either sign of the denominators. -/
def le (x y : Q) : Bool := decide ((x.num * y.den - y.num * x.den) * (x.den * y.den) ≤ 0)

/-- Strict value ordering (Python float `<`). -/
def lt (x y : Q) : Bool := decide ((x.num * y.den - y.num * x.den) * (x.den * y.den) < 0)

instance : Add Q := ⟨Q.add⟩
instance : Sub Q := ⟨Q.sub⟩
instance : Neg Q := ⟨Q.neg⟩
instance : Mul Q := ⟨Q.mul⟩
instance : Div Q := ⟨Q.div⟩
instance : OfNat Q n := ⟨Q.ofInt n⟩

end Q

/-- Shorthand for a decimal fraction literal of the source. -/
def q (n d : Int) : Q := ⟨n, d⟩

/-- An arbitrary point in 3D space (`geometry.Point`), with coordinates modelled
as exact fractions. -/
structure Point where
  x : Q
  y : Q
  z : Q
deriving Repr, DecidableEq

namespace Point

/-- Componentwise vector addition (`Point.__add__`). -/
def add (p o : Point) : Point := ⟨p.x + o.x, p.y + o.y, p.z + o.z⟩

/-- Componentwise vector subtraction (`Point.__sub__`). -/
def sub (p o : Point) : Point := ⟨p.x - o.x, p.y - o.y, p.z - o.z⟩

instance : Add Point := ⟨Point.add⟩
instance : Sub Point := ⟨Point.sub⟩

end Point

/-- An arbitrary line segment in 3D space (`geometry.Edge`).  The source field
`end` is a Lean keyword, so it is named `stop` here. -/
structure Edge where
  start : Point
  stop : Point
deriving Repr, DecidableEq

/-- A polygon in 3D space as a sequence of edges (`geometry.PolygonalSurface`). -/
abbrev PolygonalSurface := List Edge

/-- A polygonal shape as a sequence of surfaces (`geometry.PolygonalShape`). -/
abbrev PolygonalShape := List PolygonalSurface

/-- Value equality of points (Python `Point.__eq__`, which compares the
coordinate tuples with float `==`). -/
def Point.beqQ (p o : Point) : Bool := Q.beq p.x o.x && Q.beq p.y o.y && Q.beq p.z o.z

/-- Salient points of an edge, in structural order (`iter_salient_points`). -/
def Edge.salientPoints (e : Edge) : List Point := [e.start, e.stop]

/-- Salient points of a surface, in structural order. -/
def PolygonalSurface.salientPoints (s : PolygonalSurface) : List Point :=
  s.flatMap Edge.salientPoints

/-- Salient points of a shape, in structural order. -/
def PolygonalShape.salientPoints (s : PolygonalShape) : List Point :=
  s.flatMap PolygonalSurface.salientPoints

/-- Area of a triangle whose three corners lie in the z = 0 plane: the source's
`triangle_area` is `0.5 * sqrt` of the sum of the three squared cross-product
components; for z = 0 corners the first two components vanish and the square
root of the remaining square is an absolute value.  `is_below_point`, the only
caller, always projects its arguments to z = 0 first. -/
def triangle_area (a b c : Point) : Q :=
  q 1 2 * Q.abs ((b.x - a.x) * (c.y - a.y) - (b.y - a.y) * (c.x - a.x))

/-- Whether a point falls on (or close to) a triangle, by the barycentric
area test of `geometry.inside_triangle`, for corners in the z = 0 plane. -/
def inside_triangle (p a b c : Point) (tolerance : Q) : Bool :=
  Q.le (triangle_area p b c + triangle_area a p c + triangle_area a b p)
       (triangle_area a b c * (Q.ofInt 1 + tolerance))

/-- All ordered pairs of list elements with the first strictly before the
second, mirroring the nested `for index2 in range(index1+1, ...)` loops of the
source. -/
def pairsOf {α : Type} : List α → List (α × α)
  | [] => []
  | a :: rest => (rest.map fun b => (a, b)) ++ pairsOf rest

/-- All ordered triples of list elements at strictly increasing positions,
mirroring the triple loop of `PhysicalObject.is_below_point`. -/
def triplesOf {α : Type} : List α → List (α × α × α)
  | [] => []
  | a :: rest => ((pairsOf rest).map fun bc => (a, bc.1, bc.2)) ++ triplesOf rest

/-- Lexicographic comparison of points by `(x, y, z)` under float value order,
the sort key `tuple(p)` used in `is_below_point`. -/
def Point.lexLe (p o : Point) : Bool :=
  if Q.beq p.x o.x then
    if Q.beq p.y o.y then Q.le p.z o.z
    else Q.lt p.y o.y
  else Q.lt p.x o.x

/-- Membership of a point in a list under float value equality. -/
def memQ (p : Point) : List Point → Bool
  | [] => false
  | a :: rest => Point.beqQ p a || memQ p rest

/-- Insertion into a lexicographically sorted list. -/
def insertLex (p : Point) : List Point → List Point
  | [] => [p]
  | a :: rest => if Point.lexLe p a then p :: a :: rest else a :: insertLex p rest

/-- Deduplicate (by float value equality) and sort lexicographically: the
source's `sorted({...}, key=lambda p: tuple(p))`.  The result — the distinct
values in ascending order — is independent of Python's set iteration order. -/
def sortedDedup (l : List Point) : List Point :=
  (l.foldr (fun p acc => if memQ p acc then acc else p :: acc) []).foldr insertLex []

/-- Construct a `PolygonalShape` for a cuboid (`geometry.make_block`). -/
def make_block (width depth height : Q) : PolygonalShape :=
  let left := -width / Q.ofInt 2
  let right := width / Q.ofInt 2
  let front := -depth / Q.ofInt 2
  let back := depth / Q.ofInt 2
  let top := height
  let bottom := Q.ofInt 0
  let x_span := [left, right]
  let y_span := [front, back]
  let z_span := [bottom, top]
  let corners := x_span.flatMap fun x => y_span.flatMap fun y => z_span.map fun z =>
    Point.mk x y z
  let adjacent := fun (p1 p2 : Point) =>
    ((if Q.beq p1.x p2.x then 0 else 1) + (if Q.beq p1.y p2.y then 0 else 1)
      + (if Q.beq p1.z p2.z then 0 else 1) : Nat) == 1
  let edges := (pairsOf corners).filterMap fun pq =>
    if adjacent pq.1 pq.2 then some (Edge.mk pq.1 pq.2) else none
  let xs : List PolygonalSurface := x_span.map fun x =>
    edges.filter fun e => Q.beq e.start.x x && Q.beq e.stop.x x
  let ys : List PolygonalSurface := y_span.map fun y =>
    edges.filter fun e => Q.beq e.start.y y && Q.beq e.stop.y y
  let zs : List PolygonalSurface := z_span.map fun z =>
    edges.filter fun e => Q.beq e.start.z z && Q.beq e.stop.z z
  xs ++ ys ++ zs

/-- Construct a `PolygonalShape` for an open-topped box (`geometry.make_box`):
the cuboid minus its top face. -/
def make_box (width depth height : Q) : PolygonalShape :=
  let left := -width / Q.ofInt 2
  let right := width / Q.ofInt 2
  let front := -depth / Q.ofInt 2
  let back := depth / Q.ofInt 2
  let top := height
  let bottom := Q.ofInt 0
  let x_span := [left, right]
  let y_span := [front, back]
  let z_span := [bottom, top]
  let corners := x_span.flatMap fun x => y_span.flatMap fun y => z_span.map fun z =>
    Point.mk x y z
  let adjacent := fun (p1 p2 : Point) =>
    ((if Q.beq p1.x p2.x then 0 else 1) + (if Q.beq p1.y p2.y then 0 else 1)
      + (if Q.beq p1.z p2.z then 0 else 1) : Nat) == 1
  let edges := (pairsOf corners).filterMap fun pq =>
    if adjacent pq.1 pq.2 then some (Edge.mk pq.1 pq.2) else none
  let xs : List PolygonalSurface := x_span.map fun x =>
    edges.filter fun e => Q.beq e.start.x x && Q.beq e.stop.x x
  let ys : List PolygonalSurface := y_span.map fun y =>
    edges.filter fun e => Q.beq e.start.y y && Q.beq e.stop.y y
  let zs : List PolygonalSurface :=
    [edges.filter fun e => Q.beq e.start.z bottom && Q.beq e.stop.z bottom]
  xs ++ ys ++ zs

/-- Construct a `PolygonalShape` for a rectangular pyramid
(`geometry.make_pyramid`). -/
def make_pyramid (width depth height : Q) : PolygonalShape :=
  let left := -width / Q.ofInt 2
  let right := width / Q.ofInt 2
  let front := -depth / Q.ofInt 2
  let back := depth / Q.ofInt 2
  let top := height
  let bottom := Q.ofInt 0
  let x_span := [left, right]
  let y_span := [front, back]
  let bottom_corners := x_span.flatMap fun x => y_span.map fun y => Point.mk x y bottom
  let peak := Point.mk ((left + right) / Q.ofInt 2) ((front + back) / Q.ofInt 2) top
  let adjacent := fun (p1 p2 : Point) =>
    ((if Q.beq p1.x p2.x then 0 else 1) + (if Q.beq p1.y p2.y then 0 else 1)
      + (if Q.beq p1.z p2.z then 0 else 1) : Nat) == 1
  let bottom_edges := (pairsOf bottom_corners).filterMap fun pq =>
    if adjacent pq.1 pq.2 then some (Edge.mk pq.1 pq.2) else none
  let side_edges := bottom_corners.map fun corner => Edge.mk corner peak
  let bottom_surface : PolygonalSurface := bottom_edges
  let side_surfaces : List PolygonalSurface := bottom_edges.map fun be =>
    be :: side_edges.filter fun se => Point.beqQ se.start be.start || Point.beqQ se.start be.stop
  bottom_surface :: side_surfaces

/-- Construct a `PolygonalShape` for a table surface (`geometry.make_table`). -/
def make_table (width depth : Q) : PolygonalShape :=
  let left := -width / Q.ofInt 2
  let right := width / Q.ofInt 2
  let front := -depth / Q.ofInt 2
  let back := depth / Q.ofInt 2
  let bottom := Q.ofInt 0
  let x_span := [left, right]
  let y_span := [front, back]
  let corners := x_span.flatMap fun x => y_span.map fun y => Point.mk x y bottom
  let adjacent := fun (p1 p2 : Point) =>
    ((if Q.beq p1.x p2.x then 0 else 1) + (if Q.beq p1.y p2.y then 0 else 1)
      + (if Q.beq p1.z p2.z then 0 else 1) : Nat) == 1
  let edges := (pairsOf corners).filterMap fun pq =>
    if adjacent pq.1 pq.2 then some (Edge.mk pq.1 pq.2) else none
  [edges]

/-- Construct a `PolygonalShape` for a grasper glyph (`geometry.make_grasper`):
two crossed claw edges in the base plane and one vertical arm edge, each its
own single-edge surface. -/
def make_grasper (width height : Q) : PolygonalShape :=
  let left := -width / Q.ofInt 2
  let right := width / Q.ofInt 2
  let front := -width / Q.ofInt 2
  let back := width / Q.ofInt 2
  let top := height
  let bottom := Q.ofInt 0
  let claw_edge1 := Edge.mk (Point.mk left (Q.ofInt 0) (Q.ofInt 0))
                            (Point.mk right (Q.ofInt 0) (Q.ofInt 0))
  let claw_edge2 := Edge.mk (Point.mk (Q.ofInt 0) front (Q.ofInt 0))
                            (Point.mk (Q.ofInt 0) back (Q.ofInt 0))
  let arm_edge := Edge.mk (Point.mk (Q.ofInt 0) (Q.ofInt 0) bottom)
                          (Point.mk (Q.ofInt 0) (Q.ofInt 0) top)
  [[claw_edge1], [claw_edge2], [arm_edge]]

/-- The tag map of a physical object (`scenes.PhysicalObject.tags`), restricted
to the keys the embedded code reads or writes.  `none` models an absent key
(and a key stored with value `None`, which every read of the source treats
identically via `dict.get`). -/
structure Tags where
  obj_id : Option Int := none
  kind : Option String := none
  graspable : Option Bool := none
  can_support : Option Bool := none
  resting_on : Option Int := none
  grasped : Option Int := none
  grasped_by : Option Int := none
  closed : Option Bool := none
  lowered : Option Bool := none
  min_x : Option Q := none
  max_x : Option Q := none
  min_y : Option Q := none
  max_y : Option Q := none
deriving Repr, DecidableEq

/-- A physical object in a scene (`scenes.PhysicalObject`).  The color field is
carried for completeness but never read by the embedded code. -/
structure PhysicalObject where
  shape : PolygonalShape
  color : Nat × Nat × Nat
  position : Point
  tags : Tags
deriving Repr, DecidableEq

namespace PhysicalObject

/-- First element of maximal z (Python `max(..., key=lambda p: p.z)`, which
returns the first maximum), or `none` for an empty list (`default=None`). -/
def maxByZ : List Point → Option Point
  | [] => none
  | p :: ps => some (ps.foldl (fun best cand => if Q.lt best.z cand.z then cand else best) p)

/-- The highest salient point of the object (`PhysicalObject.find_highest_point`).
NOTE: translated exactly: for a `box`-kind object the source sets the local
highest point to `self.position` (a world-space point) and then adds
`self.position` again, returning twice the position. -/
def find_highest_point (o : PhysicalObject) : Option Point :=
  let highest : Option Point :=
    if o.tags.kind = some "box" then some o.position
    else maxByZ o.shape.salientPoints
  match highest with
  | none => none
  | some hp => some (o.position + hp)

/-- Whether any part of the object is directly underneath the given point
(`PhysicalObject.is_below_point`): project the relative position and each
surface's salient points to the z = 0 plane, deduplicate and sort the
projections, and test every index-ordered triple with `inside_triangle`. -/
def is_below_point (o : PhysicalObject) (point : Point) : Bool :=
  let relative_position := point - o.position
  let point_projection := Point.mk relative_position.x relative_position.y (Q.ofInt 0)
  o.shape.any fun surface =>
    let surface_projection :=
      sortedDedup (surface.salientPoints.map fun p => Point.mk p.x p.y (Q.ofInt 0))
    (triplesOf surface_projection).any fun t =>
      inside_triangle point_projection t.1 t.2.1 t.2.2 (q 1 1000)

/-- Whether this object can support the other at their current (x, y)
coordinates (`PhysicalObject.can_support`). -/
def can_support (o other : PhysicalObject) : Bool :=
  if !(o.tags.can_support.getD false) then false
  else if o.tags.kind = some "box" then
    other.shape.salientPoints.all fun point => o.is_below_point (other.position + point)
  else o.is_below_point other.position

end PhysicalObject

/-- An arrangement of objects (`scenes.Scene`).  The scene-level tag map (only
a creation timestamp in the source) is omitted; the embedded code never reads
it. -/
structure Scene where
  objects : List PhysicalObject
deriving Repr, DecidableEq

/-- A default object, used only to make list indexing total; every index the
controller produces is in range. -/
def dummyObject : PhysicalObject :=
  ⟨[], (0, 0, 0), Point.mk (Q.ofInt 0) (Q.ofInt 0) (Q.ofInt 0), {}⟩

/-- The object at an index of the scene's object list. -/
def Scene.objAt (sc : Scene) (i : Nat) : PhysicalObject := sc.objects.getD i dummyObject

/-- Functionally update the object at an index of the scene. -/
def Scene.modifyObj (sc : Scene) (i : Nat) (f : PhysicalObject → PhysicalObject) : Scene :=
  ⟨sc.objects.set i (f (sc.objAt i))⟩

/-- Index of the first object whose `obj_id` tag equals the given id:
`Scene.find_objects(obj_id=i)` specialised to the one tag filter the
controller's object lookup uses. -/
def Scene.findByObjId (sc : Scene) (i : Int) : Option Nat :=
  sc.objects.findIdx? fun o => o.tags.obj_id = some i

/-- Index of the first object whose `kind` tag equals the given kind:
`Scene.find_objects(kind=k)` specialised to the controller's default-grasper
search. -/
def Scene.findByKind (sc : Scene) (k : String) : Option Nat :=
  sc.objects.findIdx? fun o => o.tags.kind = some k

/-- The standard scene (`scenes.make_standard_scene`): a grasper, a table, and
nine blocks/pyramids/boxes with pre-computed `resting_on` links and object ids
assigned in list order. -/
def make_standard_scene : Scene :=
  let grasper : PhysicalObject :=
    ⟨make_grasper (q 5 100) (Q.ofInt 1), (230, 230, 0),
     Point.mk (Q.ofInt 0) (Q.ofInt 0) (q 5 10),
     { kind := some "grasper", graspable := some false, can_support := some false,
       obj_id := some 0 }⟩
  let table : PhysicalObject :=
    ⟨make_table (Q.ofInt 1) (Q.ofInt 1), (0, 0, 0),
     Point.mk (Q.ofInt 0) (Q.ofInt 0) (Q.ofInt 0),
     { kind := some "table", graspable := some false, can_support := some true,
       obj_id := some 1 }⟩
  let big_red_block : PhysicalObject :=
    ⟨make_block (q 15 100) (q 15 100) (q 15 100), (255, 0, 0),
     Point.mk (q (-3) 10) (q 1 10) (Q.ofInt 0),
     { kind := some "block", graspable := some true, can_support := some true,
       resting_on := some 1, obj_id := some 2 }⟩
  let small_red_block : PhysicalObject :=
    ⟨make_block (q 1 10) (q 1 10) (q 8 100), (255, 0, 0),
     Point.mk (q (-25) 100) (q (-2) 10) (Q.ofInt 0),
     { kind := some "block", graspable := some true, can_support := some true,
       resting_on := some 1, obj_id := some 3 }⟩
  let small_green_pyramid : PhysicalObject :=
    ⟨make_pyramid (q 1 10) (q 1 10) (q 8 100), (0, 255, 0),
     Point.mk (q (-25) 100) (q (-2) 10) (q 8 100),
     { kind := some "pyramid", graspable := some true, can_support := some false,
       resting_on := some 3, obj_id := some 4 }⟩
  let medium_sized_green_block : PhysicalObject :=
    ⟨make_block (q 15 100) (q 15 100) (q 1 10), (0, 255, 0),
     Point.mk (q (-3) 10) (q 5 100) (q 15 100),
     { kind := some "block", graspable := some true, can_support := some true,
       resting_on := some 2, obj_id := some 5 }⟩
  let tall_blue_block : PhysicalObject :=
    ⟨make_block (q 15 100) (q 15 100) (q 2 10), (0, 0, 255),
     Point.mk (q (-1) 10) (q 4 10) (Q.ofInt 0),
     { kind := some "block", graspable := some true, can_support := some true,
       resting_on := some 1, obj_id := some 6 }⟩
  let big_green_block : PhysicalObject :=
    ⟨make_block (q 2 10) (q 2 10) (q 15 100), (0, 255, 0),
     Point.mk (q 1 10) (q (-15) 100) (Q.ofInt 0),
     { kind := some "block", graspable := some true, can_support := some true,
       resting_on := some 1, obj_id := some 7 }⟩
  let tall_red_pyramid : PhysicalObject :=
    ⟨make_pyramid (q 1 10) (q 1 10) (q 2 10), (255, 0, 0),
     Point.mk (q 15 100) (q (-1) 10) (q 15 100),
     { kind := some "pyramid", graspable := some true, can_support := some false,
       resting_on := some 7, obj_id := some 8 }⟩
  let big_white_box : PhysicalObject :=
    ⟨make_box (q 35 100) (q 35 100) (q 2 10), (255, 255, 255),
     Point.mk (q 25 100) (q 25 100) (Q.ofInt 0),
     { kind := some "box", graspable := some false, can_support := some true,
       resting_on := some 1, obj_id := some 9 }⟩
  let wide_blue_pyramid : PhysicalObject :=
    ⟨make_pyramid (q 15 100) (q 15 100) (q 1 10), (0, 0, 255),
     Point.mk (q 25 100) (q 25 100) (Q.ofInt 0),
     { kind := some "pyramid", graspable := some true, can_support := some false,
       resting_on := some 9, obj_id := some 10 }⟩
  ⟨[grasper, table, big_red_block, small_red_block, small_green_pyramid,
    medium_sized_green_block, tall_blue_block, big_green_block, tall_red_pyramid,
    big_white_box, wide_blue_pyramid]⟩

/-- Error outcomes of a controller call: `unmet` is `UnmetConditionError` with
the source's message; `pyFault` is an uncatchable Python fault (an
`AttributeError` from taking `.z` of a `None` highest point, or a failing
`assert`).  `TypeError` cannot arise in the typed embedding. -/
inductive CmdErr
  | unmet (msg : String)
  | pyFault (msg : String)
deriving Repr, DecidableEq

/-- The controller's mutable state (`control.Controller`): the scene it owns,
the grasper distance tolerance, and the sticky default grasper, modelled as an
index into the scene's object list.  The source also keeps an id-keyed cache of
grasper references; since `obj_id` and `kind` tags are never mutated, a cache
hit returns exactly what a fresh lookup would, so the cache has no observable
effect and is not modelled. -/
structure CState where
  scene : Scene
  grasper_distance_tolerance : Q
  default_grasper : Option Nat
deriving Repr, DecidableEq

/-- A fresh controller wrapping a scene (`Controller.__init__`, with the
default tolerance 0.000001). -/
def initController (sc : Scene) : CState := ⟨sc, q 1 1000000, none⟩

/-- Resolve a grasper (`Controller._require_grasper`): an explicit id must name
an existing object of kind `grasper`; an omitted id resolves to the sticky
default, discovering and recording the first grasper in the scene if no default
is set yet.  Resolution can update the default (controller state), never the
scene. -/
def CState.requireGrasper (s : CState) (grasper_id : Option Int) :
    Except (CmdErr × CState) (Nat × CState) :=
  match grasper_id with
  | some gid =>
    match s.scene.findByObjId gid with
    | none => .error (.unmet "Grasper not found.", s)
    | some gi =>
      if (s.scene.objAt gi).tags.kind ≠ some "grasper" then
        .error (.unmet "Object is not a grasper.", s)
      else
        .ok (gi, { s with default_grasper := some (s.default_grasper.getD gi) })
  | none =>
    match s.default_grasper with
    | some gi => .ok (gi, s)
    | none =>
      match s.scene.findByKind "grasper" with
      | some gi => .ok (gi, { s with default_grasper := some gi })
      | none => .error (.unmet "Grasper not found.", s)

/-- The index a grasper argument resolves to, ignoring the default-grasper
bookkeeping (a pure view of `requireGrasper` used to state theorems). -/
def CState.resolveG (s : CState) (grasper_id : Option Int) : Option Nat :=
  match s.requireGrasper grasper_id with
  | .ok p => some p.1
  | .error _ => none

/-- Query whether the grasper is closed (`Controller.grasper_is_closed`). -/
def grasper_is_closed (s : CState) (grasper_id : Option Int) :
    Except (CmdErr × CState) (Bool × CState) :=
  match s.requireGrasper grasper_id with
  | .error e => .error e
  | .ok (gi, s₁) => .ok ((s₁.scene.objAt gi).tags.closed.getD false, s₁)

/-- Query whether the grasper is lowered (`Controller.grasper_is_lowered`). -/
def grasper_is_lowered (s : CState) (grasper_id : Option Int) :
    Except (CmdErr × CState) (Bool × CState) :=
  match s.requireGrasper grasper_id with
  | .error e => .error e
  | .ok (gi, s₁) => .ok ((s₁.scene.objAt gi).tags.lowered.getD false, s₁)

/-- Query which object the grasper holds (`Controller.get_grasped_object`). -/
def get_grasped_object (s : CState) (grasper_id : Option Int) :
    Except (CmdErr × CState) (Option Int × CState) :=
  match s.requireGrasper grasper_id with
  | .error e => .error e
  | .ok (gi, s₁) => .ok ((s₁.scene.objAt gi).tags.grasped, s₁)

/-- Tag assignment `tags['grasped'] = v`. -/
def setGrasped (v : Option Int) (o : PhysicalObject) : PhysicalObject :=
  { o with tags := { o.tags with grasped := v } }

/-- Tag assignment `tags['grasped_by'] = v`. -/
def setGraspedBy (v : Option Int) (o : PhysicalObject) : PhysicalObject :=
  { o with tags := { o.tags with grasped_by := v } }

/-- Tag assignment `tags['closed'] = v`. -/
def setClosed (v : Bool) (o : PhysicalObject) : PhysicalObject :=
  { o with tags := { o.tags with closed := some v } }

/-- Tag assignment `tags['lowered'] = v`. -/
def setLowered (v : Bool) (o : PhysicalObject) : PhysicalObject :=
  { o with tags := { o.tags with lowered := some v } }

/-- Tag assignment `tags['resting_on'] = v`. -/
def setRestingOn (v : Option Int) (o : PhysicalObject) : PhysicalObject :=
  { o with tags := { o.tags with resting_on := v } }

/-- Attribute assignment `obj.position = p`. -/
def setPos (p : Point) (o : PhysicalObject) : PhysicalObject := { o with position := p }

/-- Attempt to close the grasper (`Controller.close_grasper`).  Mirrors the
source statement for statement: the `if resting_on_id:` test is Python
truthiness of the id, so an id of 0 does not trigger grasping. -/
def close_grasper (s : CState) (grasper_id : Option Int) : Except (CmdErr × CState) CState :=
  match s.requireGrasper grasper_id with
  | .error e => .error e
  | .ok (gi, s) =>
    let g := s.scene.objAt gi
    if g.tags.closed.getD false then .error (.unmet "Grasper is not open.", s)
    else if g.tags.lowered.getD false then
      match g.tags.resting_on with
      | some resting_on_id =>
        if resting_on_id ≠ 0 then
          match s.scene.findByObjId resting_on_id with
          | none => .error (.unmet "Object not found.", s)
          | some ri =>
            if (s.scene.objAt ri).tags.graspable.getD false then
              let sc1 := s.scene.modifyObj gi (setGrasped (some resting_on_id))
              let sc2 := sc1.modifyObj ri (setGraspedBy ((sc1.objAt gi).tags.obj_id))
              .ok { s with scene := sc2.modifyObj gi (setClosed true) }
            else .ok { s with scene := s.scene.modifyObj gi (setClosed true) }
        else .ok { s with scene := s.scene.modifyObj gi (setClosed true) }
      | none => .ok { s with scene := s.scene.modifyObj gi (setClosed true) }
    else .ok { s with scene := s.scene.modifyObj gi (setClosed true) }

/-- Attempt to open the grasper (`Controller.open_grasper`).  The source's
`assert` that the held object's `grasped_by` matches the grasper's id is
modelled as a `pyFault`. -/
def open_grasper (s : CState) (grasper_id : Option Int) : Except (CmdErr × CState) CState :=
  match s.requireGrasper grasper_id with
  | .error e => .error e
  | .ok (gi, s) =>
    let g := s.scene.objAt gi
    if !(g.tags.closed.getD false) then .error (.unmet "Grasper is not closed.", s)
    else
      match g.tags.grasped with
      | none => .ok { s with scene := s.scene.modifyObj gi (setClosed false) }
      | some grasped_obj_id =>
        match s.scene.findByObjId grasped_obj_id with
        | none => .error (.unmet "Object not found.", s)
        | some oi =>
          if !(g.tags.lowered.getD false) then
            .error (.unmet "Grasper must be lowered first when holding an object.", s)
          else
            match (s.scene.objAt oi).tags.resting_on with
            | none =>
              .error (.unmet "Object must be lowered onto another object that can support it in order to be dropped.", s)
            | some resting_on_id =>
              match s.scene.findByObjId resting_on_id with
              | none => .error (.unmet "Object not found.", s)
              | some ri =>
                if !((s.scene.objAt ri).can_support (s.scene.objAt oi)) then
                  .error (.unmet "Object must be lowered onto another object that can support it in order to be dropped.", s)
                else if (s.scene.objAt oi).tags.grasped_by ≠ g.tags.obj_id then
                  .error (.pyFault "assertion failed: grasped_by mismatch", s)
                else
                  let sc1 := s.scene.modifyObj oi (setGraspedBy none)
                  let sc2 := sc1.modifyObj gi (setGrasped none)
                  .ok { s with scene := sc2.modifyObj gi (setClosed false) }

/-- Attempt to move the grasper to a new (x, y) coordinate
(`Controller.move_grasper`).  NOTE, translated exactly: the grasper's position
is updated before the held object (if any) is resolved, so a dangling
`grasped` id raises `UnmetConditionError` after a partial state change. -/
def move_grasper (s : CState) (x y : Option Q) (grasper_id : Option Int) :
    Except (CmdErr × CState) CState :=
  match s.requireGrasper grasper_id with
  | .error e => .error e
  | .ok (gi, s) =>
    let g := s.scene.objAt gi
    if g.tags.lowered.getD false then
      .error (.unmet "Grasper must be raised before it can be moved.", s)
    else if x = none && y = none then .error (.unmet "No position specified.", s)
    else if x.any fun v => !(Q.le (g.tags.min_x.getD v) v && Q.le v (g.tags.max_x.getD v)) then
      .error (.unmet "The grasper cannot move there.", s)
    else if y.any fun v => !(Q.le (g.tags.min_y.getD v) v && Q.le v (g.tags.max_y.getD v)) then
      .error (.unmet "The grasper cannot move there.", s)
    else
      let newPos := Point.mk (x.getD g.position.x) (y.getD g.position.y) g.position.z
      let sc1 := s.scene.modifyObj gi (setPos newPos)
      match g.tags.grasped with
      | none => .ok { s with scene := sc1 }
      | some grasped_obj_id =>
        match sc1.findByObjId grasped_obj_id with
        | none => .error (.unmet "Object not found.", { s with scene := sc1 })
        | some oi =>
          match (sc1.objAt oi).find_highest_point with
          | none => .error (.pyFault "highest_point is None", { s with scene := sc1 })
          | some hp =>
            let height := hp.z - (sc1.objAt oi).position.z
            let gpos := (sc1.objAt gi).position
            let sc2 := sc1.modifyObj oi (setPos (gpos - Point.mk (Q.ofInt 0) (Q.ofInt 0) height))
            .ok { s with scene := sc2 }

/-- Find the highest unheld object directly below the given point, with its
highest-point height (`Controller._find_object_below_grasper`): scan the
objects in order, keeping the last object whose height is at least the best so
far; absence gives height 0 and no target.  `.error ()` models the
`AttributeError` raised by `.z` when a scanned object has no highest point. -/
def findObjectBelow (sc : Scene) (gpos : Point) : Except Unit (Option Nat × Q) :=
  go sc.objects 0 none (Q.ofInt 0)
where
  go : List PhysicalObject → Nat → Option Nat → Q → Except Unit (Option Nat × Q)
  | [], _, target, target_height => .ok (target, target_height)
  | o :: rest, i, target, target_height =>
    if o.tags.grasped_by.isNone && o.is_below_point gpos then
      match o.find_highest_point with
      | none => .error ()
      | some hp =>
        if Q.le target_height hp.z then go rest (i + 1) (some i) hp.z
        else go rest (i + 1) target target_height
    else go rest (i + 1) target target_height

/-- The highest point of the highest stably positioned object
(`Controller._find_highest_stable_point`): the maximum highest-point z over all
objects that are neither grasper-kind nor currently held, or 0. -/
def findHighestStablePoint (sc : Scene) : Q :=
  sc.objects.foldl
    (fun result o =>
      if o.tags.kind = some "grasper" || o.tags.grasped_by.isSome then result
      else
        match o.find_highest_point with
        | none => result
        | some hp => if Q.lt result hp.z then hp.z else result)
    (Q.ofInt 0)

/-- Attempt to lower the grasper (`Controller.lower_grasper`).  The distance
gate `(dx**2 + dy**2) ** 0.5 <= tolerance` is translated by the exact
equivalence `sqrt s <= t  <->  0 <= t /\ s <= t*t`. -/
def lower_grasper (s : CState) (grasper_id : Option Int) : Except (CmdErr × CState) CState :=
  match s.requireGrasper grasper_id with
  | .error e => .error e
  | .ok (gi, s) =>
    let g := s.scene.objAt gi
    if g.tags.lowered.getD false then .error (.unmet "Grasper is not raised.", s)
    else
      match findObjectBelow s.scene g.position with
      | .error _ => .error (.pyFault "highest_point is None", s)
      | .ok (target, target_height) =>
        match g.tags.grasped with
        | none =>
          let sc1 := s.scene.modifyObj gi
            (setPos (Point.mk g.position.x g.position.y target_height))
          let sc2 :=
            match target with
            | some ti =>
              let disp := (sc1.objAt ti).position - (sc1.objAt gi).position
              if Q.le (Q.ofInt 0) s.grasper_distance_tolerance
                  && Q.le (disp.x * disp.x + disp.y * disp.y)
                      (s.grasper_distance_tolerance * s.grasper_distance_tolerance) then
                sc1.modifyObj gi (setRestingOn ((sc1.objAt ti).tags.obj_id))
              else sc1
            | none => sc1
          .ok { s with scene := sc2.modifyObj gi (setLowered true) }
        | some grasped_obj_id =>
          match s.scene.findByObjId grasped_obj_id with
          | none => .error (.unmet "Object not found.", s)
          | some oi =>
            match (s.scene.objAt oi).find_highest_point with
            | none => .error (.pyFault "highest_point is None", s)
            | some hp =>
              let height := hp.z - (s.scene.objAt oi).position.z
              let sc1 := s.scene.modifyObj gi
                (setPos (Point.mk g.position.x g.position.y (target_height + height)))
              let gpos := (sc1.objAt gi).position
              let sc2 := sc1.modifyObj oi (setPos (Point.mk gpos.x gpos.y target_height))
              let sc3 :=
                match target with
                | some ti => sc2.modifyObj oi (setRestingOn ((sc2.objAt ti).tags.obj_id))
                | none => sc2
              .ok { s with scene := sc3.modifyObj gi (setLowered true) }

/-- Attempt to raise the grasper (`Controller.raise_grasper`): up to the
highest stable point plus a clearance of 0.1. -/
def raise_grasper (s : CState) (grasper_id : Option Int) : Except (CmdErr × CState) CState :=
  match s.requireGrasper grasper_id with
  | .error e => .error e
  | .ok (gi, s) =>
    let g := s.scene.objAt gi
    if !(g.tags.lowered.getD false) then .error (.unmet "Grasper is not lowered.", s)
    else
      let minimum_height := findHighestStablePoint s.scene + q 1 10
      match g.tags.grasped with
      | none =>
        let sc1 := s.scene.modifyObj gi
          (setPos (Point.mk g.position.x g.position.y minimum_height))
        let sc2 := sc1.modifyObj gi (setRestingOn none)
        .ok { s with scene := sc2.modifyObj gi (setLowered false) }
      | some grasped_obj_id =>
        match s.scene.findByObjId grasped_obj_id with
        | none => .error (.unmet "Object not found.", s)
        | some oi =>
          let gpos := (s.scene.objAt gi).position
          let sc1 := s.scene.modifyObj oi (setPos (Point.mk gpos.x gpos.y minimum_height))
          match (sc1.objAt oi).find_highest_point with
          | none => .error (.pyFault "highest_point is None", { s with scene := sc1 })
          | some hp =>
            let sc2 := sc1.modifyObj gi (setPos (Point.mk gpos.x gpos.y hp.z))
            let sc3 := sc2.modifyObj oi (setRestingOn none)
            .ok { s with scene := sc3.modifyObj gi (setLowered false) }

/-- A controller command with its arguments. -/
inductive Cmd
  | closeC (grasper_id : Option Int)
  | openC (grasper_id : Option Int)
  | moveC (x y : Option Q) (grasper_id : Option Int)
  | lowerC (grasper_id : Option Int)
  | raiseC (grasper_id : Option Int)
deriving Repr, DecidableEq

/-- Execute one command. -/
def stepCmd (c : Cmd) (s : CState) : Except (CmdErr × CState) CState :=
  match c with
  | .closeC gid => close_grasper s gid
  | .openC gid => open_grasper s gid
  | .moveC x y gid => move_grasper s x y gid
  | .lowerC gid => lower_grasper s gid
  | .raiseC gid => raise_grasper s gid

/-- Run a sequence of commands, succeeding only if every command succeeds. -/
def runOk (s : CState) : List Cmd → Option CState
  | [] => some s
  | c :: cs =>
    match stepCmd c s with
    | .ok s' => runOk s' cs
    | .error _ => none

/-! Basic lemmas about the list and scene operations used by the commands. -/

theorem getD_set_self {α : Type} (l : List α) (i : Nat) (a d : α) (h : i < l.length) :
    (l.set i a).getD i d = a := by
  induction l generalizing i with
  | nil => simp at h
  | cons b t ih =>
    cases i with
    | zero => simp [List.set, List.getD]
    | succ j =>
      simp only [List.set, List.getD, List.get?]
      exact ih j (by simpa using h)

theorem getD_set_ne {α : Type} (l : List α) (i j : Nat) (a d : α) (h : j ≠ i) :
    (l.set i a).getD j d = l.getD j d := by
  induction l generalizing i j with
  | nil => simp [List.set]
  | cons b t ih =>
    cases i with
    | zero =>
      cases j with
      | zero => exact absurd rfl h
      | succ k => simp [List.set, List.getD]
    | succ i' =>
      cases j with
      | zero => simp [List.set, List.getD]
      | succ k =>
        simp only [List.set, List.getD, List.get?]
        exact ih i' k (fun hk => h (by rw [hk]))

theorem findIdx?_set_aux {α : Type} (p : α → Bool) (l : List α) :
    ∀ (i j : Nat) (a d : α), p a = p (l.getD i d) →
      List.findIdx? p (l.set i a) j = List.findIdx? p l j := by
  induction l with
  | nil => intro i j a d _; simp [List.set]
  | cons b t ih =>
    intro i j a d h
    cases i with
    | zero =>
      simp only [List.getD, List.get?, Option.getD] at h
      simp [List.set, List.findIdx?, h]
    | succ i' =>
      simp only [List.getD, List.get?] at h
      simp only [List.set, List.findIdx?]
      rw [ih i' (j + 1) a d h]

theorem findIdx?_set {α : Type} (l : List α) (p : α → Bool) (i : Nat) (a d : α)
    (h : p a = p (l.getD i d)) : (l.set i a).findIdx? p = l.findIdx? p :=
  findIdx?_set_aux p l i 0 a d h

theorem Scene.objAt_modify_self (sc : Scene) (i : Nat) (f : PhysicalObject → PhysicalObject)
    (h : i < sc.objects.length) : (sc.modifyObj i f).objAt i = f (sc.objAt i) :=
  getD_set_self _ _ _ _ h

theorem Scene.objAt_modify_ne (sc : Scene) (i j : Nat) (f : PhysicalObject → PhysicalObject)
    (h : j ≠ i) : (sc.modifyObj i f).objAt j = sc.objAt j :=
  getD_set_ne _ _ _ _ _ h

theorem Scene.modify_length (sc : Scene) (i : Nat) (f : PhysicalObject → PhysicalObject) :
    (sc.modifyObj i f).objects.length = sc.objects.length := by
  simp [Scene.modifyObj]

theorem Scene.findByObjId_modify (sc : Scene) (i : Nat) (f : PhysicalObject → PhysicalObject)
    (hf : (f (sc.objAt i)).tags.obj_id = (sc.objAt i).tags.obj_id) (v : Int) :
    (sc.modifyObj i f).findByObjId v = sc.findByObjId v := by
  unfold Scene.findByObjId Scene.modifyObj
  exact findIdx?_set _ _ _ _ dummyObject (by simp [Scene.objAt] at hf ⊢; rw [hf])

theorem Scene.findByKind_modify (sc : Scene) (i : Nat) (f : PhysicalObject → PhysicalObject)
    (hf : (f (sc.objAt i)).tags.kind = (sc.objAt i).tags.kind) (k : String) :
    (sc.modifyObj i f).findByKind k = sc.findByKind k := by
  unfold Scene.findByKind Scene.modifyObj
  exact findIdx?_set _ _ _ _ dummyObject (by simp [Scene.objAt] at hf ⊢; rw [hf])

/-- Resolution never touches the scene: a successful `requireGrasper` returns
the input state with at most the default grasper updated. -/
theorem requireGrasper_ok_shape (s : CState) (gid : Option Int) (gi : Nat) (s₁ : CState)
    (h : s.requireGrasper gid = .ok (gi, s₁)) :
    ∃ d, s₁ = { s with default_grasper := d } := by
  unfold CState.requireGrasper at h
  split at h
  · split at h
    · cases h
    · split at h
      · cases h
      · simp only [Except.ok.injEq, Prod.mk.injEq] at h
        exact ⟨_, h.2.symm⟩
  · split at h
    · simp only [Except.ok.injEq, Prod.mk.injEq] at h
      exact ⟨s.default_grasper, h.2.symm⟩
    · split at h
      · simp only [Except.ok.injEq, Prod.mk.injEq] at h
        exact ⟨_, h.2.symm⟩
      · cases h

/-- A successful resolution, restated from the pure index view. -/
theorem resolveG_requireGrasper (s : CState) (gid : Option Int) (gi : Nat)
    (h : s.resolveG gid = some gi) :
    ∃ d, s.requireGrasper gid = .ok (gi, { s with default_grasper := d }) := by
  unfold CState.resolveG at h
  cases hr : s.requireGrasper gid with
  | error e => rw [hr] at h; cases h
  | ok p =>
    rw [hr] at h
    obtain ⟨gi', s₁⟩ := p
    have hg : gi' = gi := by simpa using h
    subst hg
    obtain ⟨d, hd⟩ := requireGrasper_ok_shape s gid gi' s₁ hr
    subst hd
    exact ⟨d, rfl⟩

/-! Field bookkeeping for the tag updaters. -/

@[simp] theorem setGrasped_grasped (v : Option Int) (o : PhysicalObject) :
    (setGrasped v o).tags.grasped = v := rfl
@[simp] theorem setGrasped_grasped_by (v : Option Int) (o : PhysicalObject) :
    (setGrasped v o).tags.grasped_by = o.tags.grasped_by := rfl
@[simp] theorem setGrasped_obj_id (v : Option Int) (o : PhysicalObject) :
    (setGrasped v o).tags.obj_id = o.tags.obj_id := rfl
@[simp] theorem setGrasped_kind (v : Option Int) (o : PhysicalObject) :
    (setGrasped v o).tags.kind = o.tags.kind := rfl
@[simp] theorem setGrasped_closed (v : Option Int) (o : PhysicalObject) :
    (setGrasped v o).tags.closed = o.tags.closed := rfl
@[simp] theorem setGrasped_lowered (v : Option Int) (o : PhysicalObject) :
    (setGrasped v o).tags.lowered = o.tags.lowered := rfl
@[simp] theorem setGrasped_resting_on (v : Option Int) (o : PhysicalObject) :
    (setGrasped v o).tags.resting_on = o.tags.resting_on := rfl
@[simp] theorem setGrasped_position (v : Option Int) (o : PhysicalObject) :
    (setGrasped v o).position = o.position := rfl

@[simp] theorem setGraspedBy_grasped_by (v : Option Int) (o : PhysicalObject) :
    (setGraspedBy v o).tags.grasped_by = v := rfl
@[simp] theorem setGraspedBy_grasped (v : Option Int) (o : PhysicalObject) :
    (setGraspedBy v o).tags.grasped = o.tags.grasped := rfl
@[simp] theorem setGraspedBy_obj_id (v : Option Int) (o : PhysicalObject) :
    (setGraspedBy v o).tags.obj_id = o.tags.obj_id := rfl
@[simp] theorem setGraspedBy_kind (v : Option Int) (o : PhysicalObject) :
    (setGraspedBy v o).tags.kind = o.tags.kind := rfl
@[simp] theorem setGraspedBy_closed (v : Option Int) (o : PhysicalObject) :
    (setGraspedBy v o).tags.closed = o.tags.closed := rfl
@[simp] theorem setGraspedBy_lowered (v : Option Int) (o : PhysicalObject) :
    (setGraspedBy v o).tags.lowered = o.tags.lowered := rfl
@[simp] theorem setGraspedBy_resting_on (v : Option Int) (o : PhysicalObject) :
    (setGraspedBy v o).tags.resting_on = o.tags.resting_on := rfl
@[simp] theorem setGraspedBy_position (v : Option Int) (o : PhysicalObject) :
    (setGraspedBy v o).position = o.position := rfl

@[simp] theorem setClosed_closed (v : Bool) (o : PhysicalObject) :
    (setClosed v o).tags.closed = some v := rfl
@[simp] theorem setClosed_grasped (v : Bool) (o : PhysicalObject) :
    (setClosed v o).tags.grasped = o.tags.grasped := rfl
@[simp] theorem setClosed_grasped_by (v : Bool) (o : PhysicalObject) :
    (setClosed v o).tags.grasped_by = o.tags.grasped_by := rfl
@[simp] theorem setClosed_obj_id (v : Bool) (o : PhysicalObject) :
    (setClosed v o).tags.obj_id = o.tags.obj_id := rfl
@[simp] theorem setClosed_kind (v : Bool) (o : PhysicalObject) :
    (setClosed v o).tags.kind = o.tags.kind := rfl
@[simp] theorem setClosed_lowered (v : Bool) (o : PhysicalObject) :
    (setClosed v o).tags.lowered = o.tags.lowered := rfl
@[simp] theorem setClosed_resting_on (v : Bool) (o : PhysicalObject) :
    (setClosed v o).tags.resting_on = o.tags.resting_on := rfl
@[simp] theorem setClosed_position (v : Bool) (o : PhysicalObject) :
    (setClosed v o).position = o.position := rfl

@[simp] theorem setLowered_lowered (v : Bool) (o : PhysicalObject) :
    (setLowered v o).tags.lowered = some v := rfl
@[simp] theorem setLowered_grasped (v : Bool) (o : PhysicalObject) :
    (setLowered v o).tags.grasped = o.tags.grasped := rfl
@[simp] theorem setLowered_grasped_by (v : Bool) (o : PhysicalObject) :
    (setLowered v o).tags.grasped_by = o.tags.grasped_by := rfl
@[simp] theorem setLowered_obj_id (v : Bool) (o : PhysicalObject) :
    (setLowered v o).tags.obj_id = o.tags.obj_id := rfl
@[simp] theorem setLowered_kind (v : Bool) (o : PhysicalObject) :
    (setLowered v o).tags.kind = o.tags.kind := rfl
@[simp] theorem setLowered_closed (v : Bool) (o : PhysicalObject) :
    (setLowered v o).tags.closed = o.tags.closed := rfl
@[simp] theorem setLowered_resting_on (v : Bool) (o : PhysicalObject) :
    (setLowered v o).tags.resting_on = o.tags.resting_on := rfl
@[simp] theorem setLowered_position (v : Bool) (o : PhysicalObject) :
    (setLowered v o).position = o.position := rfl

@[simp] theorem setRestingOn_resting_on (v : Option Int) (o : PhysicalObject) :
    (setRestingOn v o).tags.resting_on = v := rfl
@[simp] theorem setRestingOn_grasped (v : Option Int) (o : PhysicalObject) :
    (setRestingOn v o).tags.grasped = o.tags.grasped := rfl
@[simp] theorem setRestingOn_grasped_by (v : Option Int) (o : PhysicalObject) :
    (setRestingOn v o).tags.grasped_by = o.tags.grasped_by := rfl
@[simp] theorem setRestingOn_obj_id (v : Option Int) (o : PhysicalObject) :
    (setRestingOn v o).tags.obj_id = o.tags.obj_id := rfl
@[simp] theorem setRestingOn_kind (v : Option Int) (o : PhysicalObject) :
    (setRestingOn v o).tags.kind = o.tags.kind := rfl
@[simp] theorem setRestingOn_closed (v : Option Int) (o : PhysicalObject) :
    (setRestingOn v o).tags.closed = o.tags.closed := rfl
@[simp] theorem setRestingOn_lowered (v : Option Int) (o : PhysicalObject) :
    (setRestingOn v o).tags.lowered = o.tags.lowered := rfl
@[simp] theorem setRestingOn_position (v : Option Int) (o : PhysicalObject) :
    (setRestingOn v o).position = o.position := rfl

@[simp] theorem setPos_position (p : Point) (o : PhysicalObject) :
    (setPos p o).position = p := rfl
@[simp] theorem setPos_tags (p : Point) (o : PhysicalObject) :
    (setPos p o).tags = o.tags := rfl
@[simp] theorem setPos_shape (p : Point) (o : PhysicalObject) :
    (setPos p o).shape = o.shape := rfl

/-! The grasper glyph has no projected triangles, so nothing is ever "below" a
grasper-glyph-shaped object. -/

theorem insertLex_length (p : Point) (l : List Point) :
    (insertLex p l).length = l.length + 1 := by
  induction l with
  | nil => rfl
  | cons a t ih =>
    simp only [insertLex]
    split
    · simp
    · simp [ih]

theorem sortLex_length (l : List Point) : (l.foldr insertLex []).length = l.length := by
  induction l with
  | nil => rfl
  | cons a t ih => simp [insertLex_length, ih]

theorem dedupQ_length (l : List Point) :
    (l.foldr (fun p acc => if memQ p acc then acc else p :: acc) []).length ≤ l.length := by
  induction l with
  | nil => simp
  | cons a t ih =>
    simp only [List.foldr]
    split
    · exact Nat.le_succ_of_le ih
    · simpa using Nat.succ_le_succ ih

theorem sortedDedup_length (l : List Point) : (sortedDedup l).length ≤ l.length := by
  unfold sortedDedup
  rw [sortLex_length]
  exact dedupQ_length l

theorem triplesOf_eq_nil {α : Type} (l : List α) (h : l.length ≤ 2) : triplesOf l = [] := by
  match l with
  | [] => rfl
  | [a] => rfl
  | [a, b] => rfl
  | a :: b :: c :: t => simp at h

/-- A polygonal surface whose salient points project to at most two distinct
values yields no triangle to test. -/
theorem anyTriples_sortedDedup_false (l : List Point) (h : l.length ≤ 2)
    (g : Point × Point × Point → Bool) : (triplesOf (sortedDedup l)).any g = false := by
  rw [triplesOf_eq_nil (sortedDedup l) (Nat.le_trans (sortedDedup_length l) h)]
  rfl

/-- No point is ever directly above an object whose shape was built by the
grasper glyph factory: each of the glyph's three single-edge surfaces projects
to at most two distinct XY points, so the triangle scan finds nothing. -/
theorem is_below_point_glyph (w h : Q) (col : Nat × Nat × Nat) (pos : Point)
    (tags : Tags) (p : Point) :
    PhysicalObject.is_below_point ⟨make_grasper w h, col, pos, tags⟩ p = false := by
  unfold PhysicalObject.is_below_point make_grasper
  simp only [List.any_cons, List.any_nil, Bool.or_false, Bool.or_eq_false_iff]
  refine ⟨?_, ?_, ?_⟩ <;>
    exact anyTriples_sortedDedup_false _ (by simp [PolygonalSurface.salientPoints,
      Edge.salientPoints]) _

/-- Find the object at a valid index. -/
theorem Scene.objAt_lt (sc : Scene) (j : Nat) (hj : j < sc.objects.length) :
    sc.objAt j = sc.objects.get ⟨j, hj⟩ := by
  simp [Scene.objAt, List.getD, List.getElem?_eq_getElem hj]

/-- Whatever `_find_object_below_grasper` selects passed the
`is_below_point` filter: auxiliary induction over the scan. -/
theorem findObjectBelow_go_below (gpos : Point) (P : Nat → Prop) :
    ∀ (l : List PhysicalObject) (i : Nat) (acc : Option Nat) (th : Q),
      (∀ a, acc = some a → P a) →
      (∀ (j : Nat) (hj : j < l.length), (l.get ⟨j, hj⟩).is_below_point gpos = true → P (i + j)) →
      ∀ ti h, findObjectBelow.go gpos l i acc th = .ok (some ti, h) → P ti := by
  intro l
  induction l with
  | nil =>
    intro i acc th hacc _ ti h hgo
    simp only [findObjectBelow.go, Except.ok.injEq, Prod.mk.injEq] at hgo
    exact hacc ti hgo.1
  | cons o rest ih =>
    intro i acc th hacc hmem ti h hgo
    have hmem' : ∀ (j : Nat) (hj : j < rest.length),
        (rest.get ⟨j, hj⟩).is_below_point gpos = true → P (i + 1 + j) := by
      intro j hj hb
      have := hmem (j + 1) (by simpa using Nat.succ_lt_succ hj) (by simpa using hb)
      simpa [Nat.add_assoc, Nat.add_comm 1 j] using this
    simp only [findObjectBelow.go] at hgo
    by_cases hfilter : (o.tags.grasped_by.isNone && o.is_below_point gpos) = true
    · rw [if_pos hfilter] at hgo
      cases hhp : o.find_highest_point with
      | none => rw [hhp] at hgo; dsimp only at hgo; cases hgo
      | some hp =>
        rw [hhp] at hgo
        dsimp only at hgo
        by_cases hle : Q.le th hp.z = true
        · rw [if_pos hle] at hgo
          refine ih (i + 1) (some i) hp.z ?_ hmem' ti h hgo
          intro a ha
          cases ha
          have hb : o.is_below_point gpos = true := by
            simp only [Bool.and_eq_true] at hfilter
            exact hfilter.2
          have := hmem 0 (by simp) (by simpa using hb)
          simpa using this
        · rw [if_neg hle] at hgo
          exact ih (i + 1) acc th hacc hmem' ti h hgo
    · rw [if_neg hfilter] at hgo
      exact ih (i + 1) acc th hacc hmem' ti h hgo

/-- The object selected by `_find_object_below_grasper` is directly below the
grasper position. -/
theorem findObjectBelow_below (sc : Scene) (gpos : Point) (ti : Nat) (h : Q)
    (hfind : findObjectBelow sc gpos = .ok (some ti, h)) :
    (sc.objAt ti).is_below_point gpos = true := by
  unfold findObjectBelow at hfind
  refine findObjectBelow_go_below gpos (fun k => (sc.objAt k).is_below_point gpos = true)
    sc.objects 0 none (Q.ofInt 0) (fun a ha => by cases ha) ?_ ti h hfind
  intro j hj hb
  rw [Nat.zero_add, Scene.objAt_lt sc j hj]
  exact hb

/-- A box-kind object at a nonzero position, exhibiting the
`find_highest_point` special case. -/
def boxAt123 : PhysicalObject :=
  ⟨make_box (Q.ofInt 1) (Q.ofInt 1) (Q.ofInt 1), (255, 255, 255),
   Point.mk (Q.ofInt 1) (Q.ofInt 2) (Q.ofInt 3),
   { kind := some "box", can_support := some true, obj_id := some 0 }⟩

/-- A small scene for concrete runs: a grasper directly above a graspable
block that rests on a table. -/
def smallScene : Scene :=
  ⟨[⟨make_grasper (q 5 100) (Q.ofInt 1), (230, 230, 0),
     Point.mk (q 2 10) (Q.ofInt 0) (q 5 10),
     { kind := some "grasper", graspable := some false, can_support := some false,
       obj_id := some 0 }⟩,
    ⟨make_table (Q.ofInt 1) (Q.ofInt 1), (0, 0, 0),
     Point.mk (Q.ofInt 0) (Q.ofInt 0) (Q.ofInt 0),
     { kind := some "table", graspable := some false, can_support := some true,
       obj_id := some 1 }⟩,
    ⟨make_block (q 1 10) (q 1 10) (q 1 10), (255, 0, 0),
     Point.mk (q 2 10) (Q.ofInt 0) (Q.ofInt 0),
     { kind := some "block", graspable := some true, can_support := some true,
       resting_on := some 1, obj_id := some 2 }⟩]⟩

/-- Controller on the small scene. -/
def smallInit : CState := initController smallScene

/-- Controller on the standard scene. -/
def stdInit : CState := initController make_standard_scene

/-- A scene whose grasper is already lowered. -/
def lowScene : Scene :=
  ⟨[⟨make_grasper (q 5 100) (Q.ofInt 1), (230, 230, 0),
     Point.mk (Q.ofInt 0) (Q.ofInt 0) (Q.ofInt 0),
     { kind := some "grasper", obj_id := some 0, lowered := some true }⟩]⟩

/-- Controller on the lowered scene. -/
def lowInit : CState := initController lowScene

/-- A scene whose raised, empty grasper has x bounds [0, 1]. -/
def boundScene : Scene :=
  ⟨[⟨make_grasper (q 5 100) (Q.ofInt 1), (230, 230, 0),
     Point.mk (q 3 10) (Q.ofInt 0) (q 5 10),
     { kind := some "grasper", obj_id := some 0, min_x := some (Q.ofInt 0),
       max_x := some (Q.ofInt 1) }⟩]⟩

/-- Controller on the bounded scene. -/
def boundInit : CState := initController boundScene

/-- C4 (code bug): for a box-kind object, `find_highest_point` returns
`position + position` — twice the object's position — rather than the object's
own position as the specification states; the two differ in value whenever the
position is nonzero (they coincide on the standard scene's box, whose position
has all coordinates summing to zero only in z... the witness position (1,2,3)
separates them). -/
theorem C4_box_highest_point_doubled :
    PhysicalObject.find_highest_point boxAt123 = some (boxAt123.position + boxAt123.position) ∧
    Point.beqQ (boxAt123.position + boxAt123.position) boxAt123.position = false := by
  constructor
  · rfl
  · decide

/-- C10: no point is ever directly above an object built from the grasper
glyph factory (each of its three single-edge surfaces projects to at most two
distinct XY points, so no triangle exists), and consequently an object with a
glyph shape is never selected as the target object below a grasper. -/
theorem C10_glyph_never_below :
    (∀ (w h : Q) (col : Nat × Nat × Nat) (pos : Point) (tags : Tags) (p : Point),
      PhysicalObject.is_below_point ⟨make_grasper w h, col, pos, tags⟩ p = false) ∧
    (∀ (sc : Scene) (gpos : Point) (ti : Nat) (th : Q),
      findObjectBelow sc gpos = .ok (some ti, th) →
      ∀ w h : Q, (sc.objAt ti).shape ≠ make_grasper w h) := by
  refine ⟨is_below_point_glyph, ?_⟩
  intro sc gpos ti th hfind w h hshape
  have hb := findObjectBelow_below sc gpos ti th hfind
  have hfalse : PhysicalObject.is_below_point
      ⟨make_grasper w h, (sc.objAt ti).color, (sc.objAt ti).position, (sc.objAt ti).tags⟩
      gpos = false :=
    is_below_point_glyph w h _ _ _ _
  rw [show (sc.objAt ti) =
      ⟨(sc.objAt ti).shape, (sc.objAt ti).color, (sc.objAt ti).position, (sc.objAt ti).tags⟩
    from rfl, hshape] at hb
  rw [hfalse] at hb
  cases hb

/-- Witness for C10: in the small scene the scan below the grasper selects the
block at index 2, which therefore cannot have a glyph shape. -/
theorem C10_glyph_never_below_witness :
    ∀ w h : Q, (smallScene.objAt 2).shape ≠ make_grasper w h :=
  C10_glyph_never_below.2 smallScene (Point.mk (q 2 10) (Q.ofInt 0) (q 5 10)) 2
    (q 1 10) rfl

/-- C9: a resolved grasper whose tag map lacks the `closed` key reports not
closed, one whose tag map lacks the `lowered` key reports not lowered, and the
standard scene's grasper is built with neither key, so it initially reports
open and raised purely by tag absence. -/
theorem C9_absent_tags_report_false :
    (∀ (s : CState) (gid : Option Int) (gi : Nat), s.resolveG gid = some gi →
      (s.scene.objAt gi).tags.closed = none →
      ∃ s₁, grasper_is_closed s gid = .ok (false, s₁)) ∧
    (∀ (s : CState) (gid : Option Int) (gi : Nat), s.resolveG gid = some gi →
      (s.scene.objAt gi).tags.lowered = none →
      ∃ s₁, grasper_is_lowered s gid = .ok (false, s₁)) ∧
    ((make_standard_scene.objAt 0).tags.closed = none ∧
     (make_standard_scene.objAt 0).tags.lowered = none ∧
     grasper_is_closed stdInit none = .ok (false, ⟨make_standard_scene, q 1 1000000, some 0⟩) ∧
     grasper_is_lowered stdInit none = .ok (false, ⟨make_standard_scene, q 1 1000000, some 0⟩)) := by
  refine ⟨?_, ?_, rfl, rfl, by rfl, by rfl⟩
  · intro s gid gi hres hclosed
    obtain ⟨d, hreq⟩ := resolveG_requireGrasper s gid gi hres
    refine ⟨{ s with default_grasper := d }, ?_⟩
    unfold grasper_is_closed
    rw [hreq]
    simp [hclosed]
  · intro s gid gi hres hlowered
    obtain ⟨d, hreq⟩ := resolveG_requireGrasper s gid gi hres
    refine ⟨{ s with default_grasper := d }, ?_⟩
    unfold grasper_is_lowered
    rw [hreq]
    simp [hlowered]

/-- Witness for C9: the first two conjuncts applied to the standard scene's
controller. -/
theorem C9_absent_tags_report_false_witness :
    (∃ s₁, grasper_is_closed stdInit none = .ok (false, s₁)) ∧
    (∃ s₁, grasper_is_lowered stdInit none = .ok (false, s₁)) :=
  ⟨C9_absent_tags_report_false.1 stdInit none 0 rfl rfl,
   C9_absent_tags_report_false.2.1 stdInit none 0 rfl rfl⟩

/-- C6: whenever the resolved grasper is lowered, `move_grasper` fails with
`UnmetConditionError` for any coordinate arguments, leaving the scene
untouched. -/
theorem C6_move_fails_when_lowered (s : CState) (gid : Option Int) (gi : Nat)
    (hres : s.resolveG gid = some gi)
    (hlow : (s.scene.objAt gi).tags.lowered.getD false = true) :
    ∀ x y : Option Q, ∃ s', move_grasper s x y gid =
      .error (.unmet "Grasper must be raised before it can be moved.", s') ∧
      s'.scene = s.scene := by
  intro x y
  obtain ⟨d, hreq⟩ := resolveG_requireGrasper s gid gi hres
  refine ⟨{ s with default_grasper := d }, ?_, rfl⟩
  unfold move_grasper
  rw [hreq]
  simp [hlow]

/-- Witness for C6: a lowered grasper refuses to move. -/
theorem C6_move_fails_when_lowered_witness :
    ∃ s', move_grasper lowInit (some (Q.ofInt 0)) none none =
      .error (.unmet "Grasper must be raised before it can be moved.", s') ∧
      s'.scene = lowInit.scene :=
  C6_move_fails_when_lowered lowInit none 0 rfl rfl (some (Q.ofInt 0)) none

/-- C7: for a raised, empty grasper, `move_grasper(x=v)` fails with
`UnmetConditionError` exactly when `v` violates the grasper's `min_x`/`max_x`
bound tags (an absent bound imposes no constraint, being defaulted to `v`
itself), and otherwise succeeds, placing the grasper exactly at
`(v, old_y, old_z)`. -/
theorem C7_move_x_bounds (s : CState) (gid : Option Int) (gi : Nat) (v : Q)
    (hres : s.resolveG gid = some gi) (hlen : gi < s.scene.objects.length)
    (hraised : (s.scene.objAt gi).tags.lowered.getD false = false)
    (hempty : (s.scene.objAt gi).tags.grasped = none) :
    ((Q.le ((s.scene.objAt gi).tags.min_x.getD v) v &&
      Q.le v ((s.scene.objAt gi).tags.max_x.getD v)) = false →
      ∃ s', move_grasper s (some v) none gid =
        .error (.unmet "The grasper cannot move there.", s') ∧ s'.scene = s.scene) ∧
    ((Q.le ((s.scene.objAt gi).tags.min_x.getD v) v &&
      Q.le v ((s.scene.objAt gi).tags.max_x.getD v)) = true →
      ∃ s', move_grasper s (some v) none gid = .ok s' ∧
        (s'.scene.objAt gi).position =
          Point.mk v (s.scene.objAt gi).position.y (s.scene.objAt gi).position.z) := by
  obtain ⟨d, hreq⟩ := resolveG_requireGrasper s gid gi hres
  constructor
  · intro hbound
    refine ⟨{ s with default_grasper := d }, ?_, rfl⟩
    unfold move_grasper
    rw [hreq]
    simp [hraised, Option.any, hbound]
  · intro hbound
    refine ⟨⟨s.scene.modifyObj gi
        (setPos (Point.mk v (s.scene.objAt gi).position.y (s.scene.objAt gi).position.z)),
      s.grasper_distance_tolerance, d⟩, ?_, ?_⟩
    · unfold move_grasper
      rw [hreq]
      simp [hraised, Option.any, hbound, hempty]
    · rw [Scene.objAt_modify_self _ _ _ hlen]
      simp

/-- Witness for C7: moving to x = 1/2 inside the bounds [0, 1] succeeds and
pins the grasper at exactly that x. -/
theorem C7_move_x_bounds_witness :
    ∃ s', move_grasper boundInit (some (q 1 2)) none none = .ok s' ∧
      (s'.scene.objAt 0).position =
        Point.mk (q 1 2) (boundInit.scene.objAt 0).position.y
          (boundInit.scene.objAt 0).position.z :=
  (C7_move_x_bounds boundInit none 0 (q 1 2) rfl (by decide) rfl rfl).2 (by decide)

/-- A scene whose grasper holds a dangling object id (no object 5 exists). -/
def danglingScene : Scene :=
  ⟨[⟨make_grasper (q 5 100) (Q.ofInt 1), (230, 230, 0),
     Point.mk (Q.ofInt 0) (Q.ofInt 0) (Q.ofInt 1),
     { kind := some "grasper", obj_id := some 0, grasped := some 5 }⟩]⟩

/-- Controller on the dangling scene. -/
def danglingInit : CState := initController danglingScene

/-- A failing `requireGrasper` returns the untouched input state. -/
theorem requireGrasper_error_state (s : CState) (gid : Option Int) (e : CmdErr) (es : CState)
    (h : s.requireGrasper gid = .error (e, es)) : es = s := by
  unfold CState.requireGrasper at h
  split at h
  · split at h
    · simp only [Except.error.injEq, Prod.mk.injEq] at h
      exact h.2.symm
    · split at h
      · simp only [Except.error.injEq, Prod.mk.injEq] at h
        exact h.2.symm
      · cases h
  · split at h
    · cases h
    · split at h
      · cases h
      · simp only [Except.error.injEq, Prod.mk.injEq] at h
        exact h.2.symm

/-- A successful resolution seen through the pure index view. -/
theorem requireGrasper_resolveG (s : CState) (gid : Option Int) (gi : Nat) (s₁ : CState)
    (h : s.requireGrasper gid = .ok (gi, s₁)) : s.resolveG gid = some gi := by
  unfold CState.resolveG
  rw [h]

/-- `close_grasper` never changes the scene on an `UnmetConditionError`. -/
theorem close_unmet_scene (s : CState) (gid : Option Int) (msg : String) (s' : CState)
    (h : close_grasper s gid = .error (.unmet msg, s')) : s'.scene = s.scene := by
  unfold close_grasper at h
  cases hreq : s.requireGrasper gid with
  | error e =>
    rw [hreq] at h
    dsimp only at h
    obtain ⟨e', es⟩ := e
    simp only [Except.error.injEq, Prod.mk.injEq] at h
    rw [← h.2, requireGrasper_error_state s gid e' es hreq]
  | ok p =>
    obtain ⟨gi, s₁⟩ := p
    obtain ⟨d, hd⟩ := requireGrasper_ok_shape s gid gi s₁ hreq
    subst hd
    rw [hreq] at h
    dsimp only at h
    repeat' split at h
    all_goals
      first
      | (simp only [Except.error.injEq, Prod.mk.injEq] at h
         obtain ⟨h1, h2⟩ := h
         cases h1 <;> rw [← h2] <;> rfl)
      | cases h

/-- `open_grasper` never changes the scene on an `UnmetConditionError`. -/
theorem open_unmet_scene (s : CState) (gid : Option Int) (msg : String) (s' : CState)
    (h : open_grasper s gid = .error (.unmet msg, s')) : s'.scene = s.scene := by
  unfold open_grasper at h
  cases hreq : s.requireGrasper gid with
  | error e =>
    rw [hreq] at h
    dsimp only at h
    obtain ⟨e', es⟩ := e
    simp only [Except.error.injEq, Prod.mk.injEq] at h
    rw [← h.2, requireGrasper_error_state s gid e' es hreq]
  | ok p =>
    obtain ⟨gi, s₁⟩ := p
    obtain ⟨d, hd⟩ := requireGrasper_ok_shape s gid gi s₁ hreq
    subst hd
    rw [hreq] at h
    dsimp only at h
    repeat' split at h
    all_goals
      first
      | (simp only [Except.error.injEq, Prod.mk.injEq] at h
         obtain ⟨h1, h2⟩ := h
         cases h1 <;> rw [← h2] <;> rfl)
      | cases h

/-- `lower_grasper` never changes the scene on an `UnmetConditionError`. -/
theorem lower_unmet_scene (s : CState) (gid : Option Int) (msg : String) (s' : CState)
    (h : lower_grasper s gid = .error (.unmet msg, s')) : s'.scene = s.scene := by
  unfold lower_grasper at h
  cases hreq : s.requireGrasper gid with
  | error e =>
    rw [hreq] at h
    dsimp only at h
    obtain ⟨e', es⟩ := e
    simp only [Except.error.injEq, Prod.mk.injEq] at h
    rw [← h.2, requireGrasper_error_state s gid e' es hreq]
  | ok p =>
    obtain ⟨gi, s₁⟩ := p
    obtain ⟨d, hd⟩ := requireGrasper_ok_shape s gid gi s₁ hreq
    subst hd
    rw [hreq] at h
    dsimp only at h
    repeat' split at h
    all_goals
      first
      | (simp only [Except.error.injEq, Prod.mk.injEq] at h
         obtain ⟨h1, h2⟩ := h
         cases h1 <;> rw [← h2] <;> rfl)
      | cases h

/-- `raise_grasper` never changes the scene on an `UnmetConditionError`. -/
theorem raise_unmet_scene (s : CState) (gid : Option Int) (msg : String) (s' : CState)
    (h : raise_grasper s gid = .error (.unmet msg, s')) : s'.scene = s.scene := by
  unfold raise_grasper at h
  cases hreq : s.requireGrasper gid with
  | error e =>
    rw [hreq] at h
    dsimp only at h
    obtain ⟨e', es⟩ := e
    simp only [Except.error.injEq, Prod.mk.injEq] at h
    rw [← h.2, requireGrasper_error_state s gid e' es hreq]
  | ok p =>
    obtain ⟨gi, s₁⟩ := p
    obtain ⟨d, hd⟩ := requireGrasper_ok_shape s gid gi s₁ hreq
    subst hd
    rw [hreq] at h
    dsimp only at h
    repeat' split at h
    all_goals
      first
      | (simp only [Except.error.injEq, Prod.mk.injEq] at h
         obtain ⟨h1, h2⟩ := h
         cases h1 <;> rw [← h2] <;> rfl)
      | cases h

/-- `move_grasper` never changes the scene on an `UnmetConditionError`,
provided the grasper's `grasped` tag, when set, names an existing object (the
source otherwise updates the grasper's position before raising). -/
theorem move_unmet_scene (s : CState) (x y : Option Q) (gid : Option Int) (msg : String)
    (s' : CState)
    (hvalid : ∀ gi oid, s.resolveG gid = some gi →
      (s.scene.objAt gi).tags.grasped = some oid → (s.scene.findByObjId oid).isSome = true)
    (h : move_grasper s x y gid = .error (.unmet msg, s')) : s'.scene = s.scene := by
  unfold move_grasper at h
  cases hreq : s.requireGrasper gid with
  | error e =>
    rw [hreq] at h
    dsimp only at h
    obtain ⟨e', es⟩ := e
    simp only [Except.error.injEq, Prod.mk.injEq] at h
    rw [← h.2, requireGrasper_error_state s gid e' es hreq]
  | ok p =>
    obtain ⟨gi, s₁⟩ := p
    obtain ⟨d, hd⟩ := requireGrasper_ok_shape s gid gi s₁ hreq
    subst hd
    have hres : s.resolveG gid = some gi := requireGrasper_resolveG s gid gi _ hreq
    rw [hreq] at h
    dsimp only at h
    repeat' split at h
    all_goals
      first
      | (rename_i junk1 oid hgr junk2 hfind
         rw [Scene.findByObjId_modify _ _ _ rfl] at hfind
         have hsome := hvalid gi oid hres hgr
         rw [hfind] at hsome
         cases hsome)
      | (simp only [Except.error.injEq, Prod.mk.injEq] at h
         obtain ⟨h1, h2⟩ := h
         cases h1 <;> rw [← h2] <;> rfl)
      | cases h

/-- A scene whose grasper is already closed. -/
def lowClosedScene : Scene :=
  ⟨[⟨make_grasper (q 5 100) (Q.ofInt 1), (230, 230, 0),
     Point.mk (Q.ofInt 0) (Q.ofInt 0) (q 5 10),
     { kind := some "grasper", obj_id := some 0, closed := some true }⟩]⟩

/-- Counterexample to C3: on a scene whose grasper's `grasped` tag names a
nonexistent object, `move_grasper` raises `UnmetConditionError` after having
already updated the grasper's position, so the failing call is not atomic. -/
theorem C3_move_partial_mutation :
    ∃ s', move_grasper danglingInit (some (Q.ofInt 1)) none none =
        .error (.unmet "Object not found.", s') ∧
      (s'.scene.objAt 0).position ≠ (danglingInit.scene.objAt 0).position := by
  refine ⟨_, rfl, ?_⟩
  decide

/-- C3 (amended): every command is scene-atomic on `UnmetConditionError`
failures, except that `move_grasper` additionally needs the grasper's
`grasped` tag, when set, to name an existing object — otherwise the source
updates the grasper's position before discovering the dangling id and
raising. -/
theorem C3_unmet_atomicity :
    (∀ (s : CState) (gid : Option Int) (msg : String) (s' : CState),
      close_grasper s gid = .error (.unmet msg, s') → s'.scene = s.scene) ∧
    (∀ (s : CState) (gid : Option Int) (msg : String) (s' : CState),
      open_grasper s gid = .error (.unmet msg, s') → s'.scene = s.scene) ∧
    (∀ (s : CState) (gid : Option Int) (msg : String) (s' : CState),
      lower_grasper s gid = .error (.unmet msg, s') → s'.scene = s.scene) ∧
    (∀ (s : CState) (gid : Option Int) (msg : String) (s' : CState),
      raise_grasper s gid = .error (.unmet msg, s') → s'.scene = s.scene) ∧
    (∀ (s : CState) (x y : Option Q) (gid : Option Int) (msg : String) (s' : CState),
      (∀ gi oid, s.resolveG gid = some gi →
        (s.scene.objAt gi).tags.grasped = some oid →
        (s.scene.findByObjId oid).isSome = true) →
      move_grasper s x y gid = .error (.unmet msg, s') → s'.scene = s.scene) :=
  ⟨close_unmet_scene, open_unmet_scene, lower_unmet_scene, raise_unmet_scene,
   fun s x y gid msg s' hvalid h => move_unmet_scene s x y gid msg s' hvalid h⟩

/-- Witness for C3: closing an already-closed grasper fails without touching
the scene, and an out-of-bounds move (with no held object) fails without
touching the scene. -/
theorem C3_unmet_atomicity_witness :
    (∀ s', close_grasper ⟨lowClosedScene, q 1 1000000, none⟩ none =
      .error (.unmet "Grasper is not open.", s') →
      s'.scene = lowClosedScene) ∧
    (∀ s', move_grasper boundInit (some (Q.ofInt 7)) none none =
      .error (.unmet "The grasper cannot move there.", s') → s'.scene = boundInit.scene) :=
  ⟨fun s' h => C3_unmet_atomicity.1 ⟨lowClosedScene, q 1 1000000, none⟩ none
      "Grasper is not open." s' h,
   fun s' h => C3_unmet_atomicity.2.2.2.2 boundInit (some (Q.ofInt 7)) none none
      "The grasper cannot move there." s'
      (fun gi oid hres hgr => by
        have h0 : boundInit.resolveG none = some 0 := rfl
        rw [h0] at hres
        cases hres
        have hnone : (boundInit.scene.objAt 0).tags.grasped = none := rfl
        rw [hnone] at hgr
        cases hgr) h⟩

/-- The release conditions C2 states for `open_grasper` on a closed, holding
grasper: the grasper is lowered, the held object resolves, its `resting_on`
tag names a resolvable object, and that object's `can_support` predicate holds
for the held object at call time. -/
def openHoldOk (s : CState) (gi : Nat) : Bool :=
  match (s.scene.objAt gi).tags.grasped with
  | none => false
  | some oid =>
    match s.scene.findByObjId oid with
    | none => false
    | some oi =>
      (s.scene.objAt gi).tags.lowered.getD false &&
      (match (s.scene.objAt oi).tags.resting_on with
       | none => false
       | some rid =>
         match s.scene.findByObjId rid with
         | none => false
         | some ri => (s.scene.objAt ri).can_support (s.scene.objAt oi))

/-- A scene whose closed, lowered grasper holds a block resting on a table. -/
def holdScene : Scene :=
  ⟨[⟨make_grasper (q 5 100) (Q.ofInt 1), (230, 230, 0),
     Point.mk (Q.ofInt 0) (Q.ofInt 0) (q 1 10),
     { kind := some "grasper", obj_id := some 0, closed := some true, lowered := some true,
       grasped := some 2 }⟩,
    ⟨make_table (Q.ofInt 1) (Q.ofInt 1), (0, 0, 0),
     Point.mk (Q.ofInt 0) (Q.ofInt 0) (Q.ofInt 0),
     { kind := some "table", obj_id := some 1, can_support := some true }⟩,
    ⟨make_block (q 1 10) (q 1 10) (q 1 10), (255, 0, 0),
     Point.mk (Q.ofInt 0) (Q.ofInt 0) (Q.ofInt 0),
     { kind := some "block", obj_id := some 2, graspable := some true,
       resting_on := some 1, grasped_by := some 0 }⟩]⟩

/-- Controller on the holding scene. -/
def holdInit : CState := initController holdScene

/-- C2: when the resolved grasper is closed and holding, `open_grasper`
succeeds only if the grasper is lowered and the held object's `resting_on` tag
names an existing object whose `can_support` returns true for it at call time;
whenever any of those conditions fails, it raises `UnmetConditionError`. -/
theorem C2_open_release_guard (s : CState) (gid : Option Int) (gi : Nat)
    (hres : s.resolveG gid = some gi)
    (hclosed : (s.scene.objAt gi).tags.closed.getD false = true)
    (hheld : ((s.scene.objAt gi).tags.grasped).isSome = true) :
    (∀ s', open_grasper s gid = .ok s' → openHoldOk s gi = true) ∧
    (openHoldOk s gi = false →
      ∃ msg s'', open_grasper s gid = .error (.unmet msg, s'')) := by
  obtain ⟨d, hreq⟩ := resolveG_requireGrasper s gid gi hres
  cases hgr : (s.scene.objAt gi).tags.grasped with
  | none => rw [hgr] at hheld; cases hheld
  | some oid =>
  unfold open_grasper openHoldOk
  rw [hreq]
  dsimp only
  rw [hclosed, hgr]
  dsimp only [Bool.not_true]
  rw [if_neg (by simp)]
  cases hfo : s.scene.findByObjId oid with
  | none =>
    dsimp only
    exact ⟨fun s' h => (nomatch h), fun _ => ⟨"Object not found.", _, rfl⟩⟩
  | some oi =>
  dsimp only
  cases hlow : (s.scene.objAt gi).tags.lowered.getD false with
  | false =>
    rw [if_pos (by simp)]
    refine ⟨fun s' h => (nomatch h), fun _ =>
      ⟨"Grasper must be lowered first when holding an object.", _, rfl⟩⟩
  | true =>
  rw [if_neg (by simp)]
  try dsimp only [Bool.true_and]
  cases hro : (s.scene.objAt oi).tags.resting_on with
  | none =>
    exact ⟨fun s' h => (nomatch h), fun _ =>
      ⟨"Object must be lowered onto another object that can support it in order to be dropped.",
       _, rfl⟩⟩
  | some rid =>
  dsimp only
  cases hfr : s.scene.findByObjId rid with
  | none =>
    exact ⟨fun s' h => (nomatch h), fun _ => ⟨"Object not found.", _, rfl⟩⟩
  | some ri =>
  dsimp only
  cases hcs : (s.scene.objAt ri).can_support (s.scene.objAt oi) with
  | false =>
    rw [if_pos (by simp)]
    exact ⟨fun s' h => (nomatch h), fun _ =>
      ⟨"Object must be lowered onto another object that can support it in order to be dropped.",
       _, rfl⟩⟩
  | true =>
  rw [if_neg (by simp)]
  refine ⟨fun s' _ => rfl, fun hfail => ?_⟩
  cases hfail

/-- Witness for C2: the holding scene satisfies all hypotheses, so the guard
characterisation applies to it. -/
theorem C2_open_release_guard_witness :
    (∀ s', open_grasper holdInit none = .ok s' → openHoldOk holdInit 0 = true) ∧
    (openHoldOk holdInit 0 = false →
      ∃ msg s'', open_grasper holdInit none = .error (.unmet msg, s'')) :=
  C2_open_release_guard holdInit none 0 rfl rfl rfl

theorem set_of_length_le {α : Type} (l : List α) (i : Nat) (a : α) (h : l.length ≤ i) :
    l.set i a = l := by
  induction l generalizing i with
  | nil => rfl
  | cons b t ih =>
    cases i with
    | zero => simp at h
    | succ j => simpa [List.set] using ih j (by simpa using h)

/-- A projection untouched by the modifying function is untouched at every
index of the scene. -/
theorem Scene.objAt_modify_proj {β : Type} (sc : Scene) (i t : Nat)
    (f : PhysicalObject → PhysicalObject) (proj : PhysicalObject → β)
    (hf : ∀ o, proj (f o) = proj o) :
    proj ((sc.modifyObj i f).objAt t) = proj (sc.objAt t) := by
  by_cases h : t = i
  · subst h
    by_cases hl : t < sc.objects.length
    · rw [Scene.objAt_modify_self _ _ _ hl, hf]
    · have hset : sc.objects.set t (f (sc.objAt t)) = sc.objects :=
        set_of_length_le _ _ _ (Nat.le_of_not_lt hl)
      show proj ((Scene.mk (sc.objects.set t (f (sc.objAt t)))).objAt t) = _
      rw [hset]
  · rw [Scene.objAt_modify_ne _ _ _ _ h]

/-- The distance gate of `lower_grasper`, stated on the pre-call scene: the
target's horizontal displacement from the grasper, compared against the
controller's tolerance (in the exact sqrt-free form of the embedding). -/
def distGateB (s : CState) (gi ti : Nat) : Bool :=
  let dx := (s.scene.objAt ti).position.x - (s.scene.objAt gi).position.x
  let dy := (s.scene.objAt ti).position.y - (s.scene.objAt gi).position.y
  Q.le (Q.ofInt 0) s.grasper_distance_tolerance &&
    Q.le (dx * dx + dy * dy)
      (s.grasper_distance_tolerance * s.grasper_distance_tolerance)

/-- A modifier preserving `resting_on` preserves it at every index. -/
theorem objAt_modify_resting_on (sc : Scene) (i t : Nat) (f : PhysicalObject → PhysicalObject)
    (hf : ∀ o, (f o).tags.resting_on = o.tags.resting_on) :
    ((sc.modifyObj i f).objAt t).tags.resting_on = (sc.objAt t).tags.resting_on :=
  Scene.objAt_modify_proj sc i t f (fun o => o.tags.resting_on) hf

/-- A modifier preserving `obj_id` preserves it at every index. -/
theorem objAt_modify_obj_id (sc : Scene) (i t : Nat) (f : PhysicalObject → PhysicalObject)
    (hf : ∀ o, (f o).tags.obj_id = o.tags.obj_id) :
    ((sc.modifyObj i f).objAt t).tags.obj_id = (sc.objAt t).tags.obj_id :=
  Scene.objAt_modify_proj sc i t f (fun o => o.tags.obj_id) hf

/-- C5: `lower_grasper` applies the `resting_on` distance gate asymmetrically.
Empty grasper: when a target is found, the grasper's `resting_on` is set to
the target's id exactly when the horizontal displacement passes the tolerance
gate, and is left untouched otherwise.  Holding grasper: the held object's
`resting_on` is always set to the target's id, with no distance condition. -/
theorem C5_lower_tolerance_asymmetry (s : CState) (gid : Option Int) (gi : Nat)
    (hres : s.resolveG gid = some gi) (hlen : gi < s.scene.objects.length)
    (hraised : (s.scene.objAt gi).tags.lowered.getD false = false) :
    ((s.scene.objAt gi).tags.grasped = none →
      ∀ ti th s', findObjectBelow s.scene (s.scene.objAt gi).position = .ok (some ti, th) →
        lower_grasper s gid = .ok s' →
        ((distGateB s gi ti = true →
           (s'.scene.objAt gi).tags.resting_on = (s.scene.objAt ti).tags.obj_id) ∧
         (distGateB s gi ti = false →
           (s'.scene.objAt gi).tags.resting_on = (s.scene.objAt gi).tags.resting_on))) ∧
    (∀ oid oi, (s.scene.objAt gi).tags.grasped = some oid →
      s.scene.findByObjId oid = some oi → oi < s.scene.objects.length →
      ∀ ti th s', findObjectBelow s.scene (s.scene.objAt gi).position = .ok (some ti, th) →
        lower_grasper s gid = .ok s' →
        (s'.scene.objAt oi).tags.resting_on = (s.scene.objAt ti).tags.obj_id) := by
  obtain ⟨d, hreq⟩ := resolveG_requireGrasper s gid gi hres
  constructor
  · intro hempty ti th s' hfind hok
    unfold lower_grasper at hok
    rw [hreq] at hok
    dsimp only at hok
    rw [hraised, if_neg (by simp), hfind] at hok
    dsimp only at hok
    rw [hempty] at hok
    dsimp only at hok
    split at hok
    case isTrue hcond =>
      simp only [Except.ok.injEq] at hok
      subst hok
      have hgate : distGateB s gi ti = true := by
        unfold distGateB
        by_cases hti : ti = gi
        · subst hti
          rw [Scene.objAt_modify_self _ _ _ hlen] at hcond
          dsimp only [setPos_position] at hcond ⊢
          exact hcond
        · rw [Scene.objAt_modify_ne _ _ _ _ hti, Scene.objAt_modify_self _ _ _ hlen] at hcond
          dsimp only [setPos_position] at hcond ⊢
          exact hcond
      refine ⟨fun _ => ?_, fun hfalse => (by rw [hgate] at hfalse; cases hfalse)⟩
      dsimp only
      rw [Scene.objAt_modify_self _ _ _
        (by rw [Scene.modify_length, Scene.modify_length]; exact hlen)]
      rw [setLowered_resting_on]
      rw [Scene.objAt_modify_self _ _ _ (by rw [Scene.modify_length]; exact hlen)]
      rw [setRestingOn_resting_on]
      by_cases hti : ti = gi
      · subst hti
        rw [Scene.objAt_modify_self _ _ _ hlen]
        rfl
      · rw [Scene.objAt_modify_ne _ _ _ _ hti]
    case isFalse hcond =>
      simp only [Except.ok.injEq] at hok
      subst hok
      have hgate : distGateB s gi ti = false := by
        cases hdg : distGateB s gi ti with
        | false => rfl
        | true =>
          exfalso
          apply hcond
          unfold distGateB at hdg
          by_cases hti : ti = gi
          · subst hti
            rw [Scene.objAt_modify_self _ _ _ hlen]
            dsimp only [setPos_position] at hdg ⊢
            exact hdg
          · rw [Scene.objAt_modify_ne _ _ _ _ hti, Scene.objAt_modify_self _ _ _ hlen]
            dsimp only [setPos_position] at hdg ⊢
            exact hdg
      refine ⟨fun htrue => (by rw [hgate] at htrue; cases htrue), fun _ => ?_⟩
      dsimp only
      rw [Scene.objAt_modify_self _ _ _ (by rw [Scene.modify_length]; exact hlen)]
      rw [setLowered_resting_on, Scene.objAt_modify_self _ _ _ hlen, setPos_tags]
  · intro oid oi hgr hfo holen ti th s' hfind hok
    unfold lower_grasper at hok
    rw [hreq] at hok
    dsimp only at hok
    rw [hraised, if_neg (by simp), hfind] at hok
    dsimp only at hok
    rw [hgr] at hok
    dsimp only at hok
    rw [hfo] at hok
    dsimp only at hok
    cases hhp : (s.scene.objAt oi).find_highest_point with
    | none => rw [hhp] at hok; dsimp only at hok; cases hok
    | some hp =>
      rw [hhp] at hok
      dsimp only at hok
      simp only [Except.ok.injEq] at hok
      subst hok
      dsimp only
      rw [objAt_modify_resting_on _ _ _ (setLowered true) (fun o => rfl)]
      rw [Scene.objAt_modify_self _ _ _
        (by rw [Scene.modify_length, Scene.modify_length]; exact holen)]
      rw [setRestingOn_resting_on]
      rw [objAt_modify_obj_id _ _ _ (setPos _) (fun o => rfl)]
      rw [objAt_modify_obj_id _ _ _ (setPos _) (fun o => rfl)]

/-- Witness for C5: the small scene's raised grasper satisfies the hypotheses,
so the gate characterisation applies to it. -/
theorem C5_lower_tolerance_asymmetry_witness :
    ((smallInit.scene.objAt 0).tags.grasped = none →
      ∀ ti th s',
        findObjectBelow smallInit.scene (smallInit.scene.objAt 0).position = .ok (some ti, th) →
        lower_grasper smallInit none = .ok s' →
        ((distGateB smallInit 0 ti = true →
           (s'.scene.objAt 0).tags.resting_on = (smallInit.scene.objAt ti).tags.obj_id) ∧
         (distGateB smallInit 0 ti = false →
           (s'.scene.objAt 0).tags.resting_on = (smallInit.scene.objAt 0).tags.resting_on))) ∧
    (∀ oid oi, (smallInit.scene.objAt 0).tags.grasped = some oid →
      smallInit.scene.findByObjId oid = some oi → oi < smallInit.scene.objects.length →
      ∀ ti th s',
        findObjectBelow smallInit.scene (smallInit.scene.objAt 0).position = .ok (some ti, th) →
        lower_grasper smallInit none = .ok s' →
        (s'.scene.objAt oi).tags.resting_on = (smallInit.scene.objAt ti).tags.obj_id) :=
  C5_lower_tolerance_asymmetry smallInit none 0 rfl (by decide) rfl

/-- A modifier preserving `kind` preserves it at every index. -/
theorem objAt_modify_kind (sc : Scene) (i t : Nat) (f : PhysicalObject → PhysicalObject)
    (hf : ∀ o, (f o).tags.kind = o.tags.kind) :
    ((sc.modifyObj i f).objAt t).tags.kind = (sc.objAt t).tags.kind :=
  Scene.objAt_modify_proj sc i t f (fun o => o.tags.kind) hf

/-- A modifier preserving `grasped` preserves it at every index. -/
theorem objAt_modify_grasped (sc : Scene) (i t : Nat) (f : PhysicalObject → PhysicalObject)
    (hf : ∀ o, (f o).tags.grasped = o.tags.grasped) :
    ((sc.modifyObj i f).objAt t).tags.grasped = (sc.objAt t).tags.grasped :=
  Scene.objAt_modify_proj sc i t f (fun o => o.tags.grasped) hf

/-- A modifier preserving `grasped_by` preserves it at every index. -/
theorem objAt_modify_grasped_by (sc : Scene) (i t : Nat) (f : PhysicalObject → PhysicalObject)
    (hf : ∀ o, (f o).tags.grasped_by = o.tags.grasped_by) :
    ((sc.modifyObj i f).objAt t).tags.grasped_by = (sc.objAt t).tags.grasped_by :=
  Scene.objAt_modify_proj sc i t f (fun o => o.tags.grasped_by) hf

/-- Replacing one element by one on which the folded step agrees leaves a left
fold unchanged. -/
theorem foldl_set {α β : Type} (step : β → α → β) (l : List α) :
    ∀ (i : Nat) (a d : α) (init : β),
      (∀ acc, step acc a = step acc (l.getD i d)) →
      (l.set i a).foldl step init = l.foldl step init := by
  induction l with
  | nil => intro i a d init _; rfl
  | cons b tl ih =>
    intro i a d init hstep
    cases i with
    | zero =>
      simp only [List.getD, List.get?, Option.getD] at hstep
      simp only [List.set, List.foldl]
      rw [hstep init]
    | succ j =>
      simp only [List.getD, List.get?] at hstep
      simp only [List.set, List.foldl]
      exact ih j a d (step init b) hstep

/-- Modifying a grasper-kind object in a kind-preserving way does not change
the highest stable point (the scan skips grasper-kind objects). -/
theorem stable_modify_grasper (sc : Scene) (i : Nat) (f : PhysicalObject → PhysicalObject)
    (hkind : (sc.objAt i).tags.kind = some "grasper")
    (hf : (f (sc.objAt i)).tags.kind = (sc.objAt i).tags.kind) :
    findHighestStablePoint (sc.modifyObj i f) = findHighestStablePoint sc := by
  unfold findHighestStablePoint Scene.modifyObj
  refine foldl_set _ sc.objects i (f (sc.objAt i)) dummyObject _ ?_
  intro acc
  have h1 : (f (sc.objAt i)).tags.kind = some "grasper" := by rw [hf, hkind]
  have h2 : (sc.objects.getD i dummyObject).tags.kind = some "grasper" := hkind
  simp only [h1, h2]
  have h2' : (sc.objects[i]?.getD dummyObject).tags.kind = some "grasper" := by
    simpa [Scene.objAt, List.getD] using hkind
  simp [h2']

/-- Resolution transfers to any state with the same default grasper and the
same lookup behaviour. -/
theorem requireGrasper_transfer (s : CState) (gid : Option Int) (gi : Nat) (d : Option Nat)
    (hreq : s.requireGrasper gid = .ok (gi, { s with default_grasper := d }))
    (t : CState) (hdef : t.default_grasper = d)
    (hobj : ∀ v, t.scene.findByObjId v = s.scene.findByObjId v)
    (hkindT : ∀ j, (t.scene.objAt j).tags.kind = (s.scene.objAt j).tags.kind)
    (hkindF : ∀ k, t.scene.findByKind k = s.scene.findByKind k) :
    ∃ d₂, t.requireGrasper gid = .ok (gi, { t with default_grasper := d₂ }) := by
  unfold CState.requireGrasper at hreq ⊢
  cases gid with
  | some i =>
    dsimp only at hreq ⊢
    cases hfo : s.scene.findByObjId i with
    | none => rw [hfo] at hreq; dsimp only at hreq; cases hreq
    | some j =>
      rw [hfo] at hreq
      dsimp only at hreq
      split at hreq
      · cases hreq
      · rename_i hkindOk
        simp only [Except.ok.injEq, Prod.mk.injEq] at hreq
        obtain ⟨hj, _⟩ := hreq
        subst hj
        rw [hobj i, hfo]
        dsimp only
        rw [if_neg (by rw [hkindT j]; exact hkindOk)]
        exact ⟨_, rfl⟩
  | none =>
    dsimp only at hreq ⊢
    cases hsd : s.default_grasper with
    | some g =>
      rw [hsd] at hreq
      dsimp only at hreq
      simp only [Except.ok.injEq, Prod.mk.injEq] at hreq
      obtain ⟨hg, hstate⟩ := hreq
      subst hg
      have hds : d = some g := by
        have := congrArg CState.default_grasper hstate
        simpa [hsd] using this.symm
      rw [hdef, hds]
      dsimp only
      exact ⟨d, by rw [← hdef]⟩
    | none =>
      rw [hsd] at hreq
      dsimp only at hreq
      cases hfk : s.scene.findByKind "grasper" with
      | none => rw [hfk] at hreq; dsimp only at hreq; cases hreq
      | some j =>
        rw [hfk] at hreq
        dsimp only at hreq
        simp only [Except.ok.injEq, Prod.mk.injEq] at hreq
        obtain ⟨hj, hstate⟩ := hreq
        subst hj
        have hds : d = some j := by
          have := congrArg CState.default_grasper hstate
          simpa using this.symm
        rw [hdef, hds]
        dsimp only
        exact ⟨d, by rw [← hdef]⟩

/-- Raising an empty, lowered grasper puts its z exactly at the highest stable
point of its scene plus the 0.1 clearance. -/
theorem raise_empty_z (t : CState) (gid : Option Int) (gi : Nat) (d₂ : Option Nat)
    (hreqT : t.requireGrasper gid = .ok (gi, { t with default_grasper := d₂ }))
    (hlenT : gi < t.scene.objects.length)
    (hlow : (t.scene.objAt gi).tags.lowered.getD false = true)
    (hempT : (t.scene.objAt gi).tags.grasped = none) :
    ∀ u, raise_grasper t gid = .ok u →
      (u.scene.objAt gi).position.z = findHighestStablePoint t.scene + q 1 10 := by
  intro u hok
  unfold raise_grasper at hok
  rw [hreqT] at hok
  try dsimp only at hok
  rw [hlow] at hok
  try dsimp only [Bool.not_true] at hok
  rw [if_neg (by simp)] at hok
  rw [hempT] at hok
  try dsimp only at hok
  simp only [Except.ok.injEq] at hok
  subst hok
  dsimp only
  rw [Scene.objAt_modify_self _ _ _
    (by rw [Scene.modify_length, Scene.modify_length]; exact hlenT)]
  rw [setLowered_position]
  rw [Scene.objAt_modify_self _ _ _ (by rw [Scene.modify_length]; exact hlenT)]
  rw [setRestingOn_position]
  rw [Scene.objAt_modify_self _ _ _ hlenT]
  rw [setPos_position]

/-- Core of the raise-after-lower height argument: raising the empty grasper
in any scene that differs from the original only at the grasper (with lookup
tags and the stable point untouched) lands at the original scene's highest
stable point plus 0.1. -/
theorem lower_then_raise_z_core (s : CState) (gid : Option Int) (gi : Nat) (d : Option Nat)
    (hreq : s.requireGrasper gid = .ok (gi, { s with default_grasper := d }))
    (hlen : gi < s.scene.objects.length)
    (hempty : (s.scene.objAt gi).tags.grasped = none)
    (X : Scene)
    (hXlen : X.objects.length = s.scene.objects.length)
    (hXkind : ∀ j, (X.objAt j).tags.kind = (s.scene.objAt j).tags.kind)
    (hXgrasped : ∀ j, (X.objAt j).tags.grasped = (s.scene.objAt j).tags.grasped)
    (hXobj : ∀ v, X.findByObjId v = s.scene.findByObjId v)
    (hXkindF : ∀ k, X.findByKind k = s.scene.findByKind k)
    (hXstable : findHighestStablePoint X = findHighestStablePoint s.scene)
    (hXlow : (X.objAt gi).tags.lowered.getD false = true)
    (u : CState)
    (hok2 : raise_grasper ⟨X, s.grasper_distance_tolerance, d⟩ gid = .ok u) :
    (u.scene.objAt gi).position.z = findHighestStablePoint s.scene + q 1 10 := by
  obtain ⟨d₂, hreqT⟩ := requireGrasper_transfer s gid gi d hreq
    ⟨X, s.grasper_distance_tolerance, d⟩ rfl hXobj hXkind hXkindF
  have hz := raise_empty_z ⟨X, s.grasper_distance_tolerance, d⟩ gid gi d₂ hreqT
    (by show gi < X.objects.length; rw [hXlen]; exact hlen) hXlow
    (by show (X.objAt gi).tags.grasped = none; rw [hXgrasped gi]; exact hempty) u hok2
  rw [hz]
  show findHighestStablePoint X + q 1 10 = _
  rw [hXstable]

/-- Object-id lookup is unchanged by a position update. -/
theorem findByObjId_setPos (sc : Scene) (i : Nat) (p : Point) (v : Int) :
    (sc.modifyObj i (setPos p)).findByObjId v = sc.findByObjId v :=
  Scene.findByObjId_modify sc i (setPos p) rfl v

/-- Object-id lookup is unchanged by a `resting_on` update. -/
theorem findByObjId_setRestingOn (sc : Scene) (i : Nat) (r : Option Int) (v : Int) :
    (sc.modifyObj i (setRestingOn r)).findByObjId v = sc.findByObjId v :=
  Scene.findByObjId_modify sc i (setRestingOn r) rfl v

/-- Object-id lookup is unchanged by a `lowered` update. -/
theorem findByObjId_setLowered (sc : Scene) (i : Nat) (b : Bool) (v : Int) :
    (sc.modifyObj i (setLowered b)).findByObjId v = sc.findByObjId v :=
  Scene.findByObjId_modify sc i (setLowered b) rfl v

/-- Kind lookup is unchanged by a position update. -/
theorem findByKind_setPos (sc : Scene) (i : Nat) (p : Point) (k : String) :
    (sc.modifyObj i (setPos p)).findByKind k = sc.findByKind k :=
  Scene.findByKind_modify sc i (setPos p) rfl k

/-- Kind lookup is unchanged by a `resting_on` update. -/
theorem findByKind_setRestingOn (sc : Scene) (i : Nat) (r : Option Int) (k : String) :
    (sc.modifyObj i (setRestingOn r)).findByKind k = sc.findByKind k :=
  Scene.findByKind_modify sc i (setRestingOn r) rfl k

/-- Kind lookup is unchanged by a `lowered` update. -/
theorem findByKind_setLowered (sc : Scene) (i : Nat) (b : Bool) (k : String) :
    (sc.modifyObj i (setLowered b)).findByKind k = sc.findByKind k :=
  Scene.findByKind_modify sc i (setLowered b) rfl k

/-- The two-update scene produced by lowering an empty grasper with no gate
hit keeps the highest stable point. -/
theorem stable_lower_chain2 (sc : Scene) (i : Nat) (p : Point)
    (hk : (sc.objAt i).tags.kind = some "grasper") :
    findHighestStablePoint ((sc.modifyObj i (setPos p)).modifyObj i (setLowered true)) =
      findHighestStablePoint sc := by
  rw [stable_modify_grasper _ _ (setLowered true)
    (by rw [objAt_modify_kind _ _ _ (setPos p) (fun o => rfl)]; exact hk) rfl]
  rw [stable_modify_grasper _ _ (setPos p) hk rfl]

/-- The three-update scene produced by lowering an empty grasper onto a target
within tolerance keeps the highest stable point. -/
theorem stable_lower_chain3 (sc : Scene) (i : Nat) (p : Point) (r : Option Int)
    (hk : (sc.objAt i).tags.kind = some "grasper") :
    findHighestStablePoint
        (((sc.modifyObj i (setPos p)).modifyObj i (setRestingOn r)).modifyObj i
          (setLowered true)) =
      findHighestStablePoint sc := by
  rw [stable_modify_grasper _ _ (setLowered true)
    (by rw [objAt_modify_kind _ _ _ (setRestingOn r) (fun o => rfl),
          objAt_modify_kind _ _ _ (setPos p) (fun o => rfl)]
        exact hk) rfl]
  rw [stable_modify_grasper _ _ (setRestingOn r)
    (by rw [objAt_modify_kind _ _ _ (setPos p) (fun o => rfl)]; exact hk) rfl]
  rw [stable_modify_grasper _ _ (setPos p) hk rfl]

/-- C8 (amended): from a raised, empty grasper, `lower_grasper` followed by
`raise_grasper` leaves the grasper's z at exactly the scene's highest stable
point plus the 0.1 clearance — independent of the grasper's starting z.  The
final z is therefore at least the starting z exactly when the starting z did
not exceed that clearance height (true of every raised state produced by
`raise_grasper` itself, but not of an arbitrarily high hand-set start). -/
theorem C8_lower_raise_clearance (s : CState) (gid : Option Int) (gi : Nat)
    (hres : s.resolveG gid = some gi) (hlen : gi < s.scene.objects.length)
    (hkind : (s.scene.objAt gi).tags.kind = some "grasper")
    (hraised : (s.scene.objAt gi).tags.lowered.getD false = false)
    (hempty : (s.scene.objAt gi).tags.grasped = none) :
    ∀ t u, lower_grasper s gid = .ok t → raise_grasper t gid = .ok u →
      ((u.scene.objAt gi).position.z = findHighestStablePoint s.scene + q 1 10 ∧
       (Q.le (s.scene.objAt gi).position.z (findHighestStablePoint s.scene + q 1 10) = true →
        Q.le (s.scene.objAt gi).position.z (u.scene.objAt gi).position.z = true)) := by
  obtain ⟨d, hreq⟩ := resolveG_requireGrasper s gid gi hres
  intro t u hok1 hok2
  have hzu : (u.scene.objAt gi).position.z = findHighestStablePoint s.scene + q 1 10 := by
    unfold lower_grasper at hok1
    rw [hreq] at hok1
    try dsimp only at hok1
    rw [hraised] at hok1
    rw [if_neg (by simp)] at hok1
    cases hfb : findObjectBelow s.scene (s.scene.objAt gi).position with
    | error e =>
      rw [hfb] at hok1
      try dsimp only at hok1
      cases hok1
    | ok p =>
      obtain ⟨target, th⟩ := p
      rw [hfb] at hok1
      try dsimp only at hok1
      rw [hempty] at hok1
      try dsimp only at hok1
      cases target with
      | none =>
        simp only [Except.ok.injEq] at hok1
        subst hok1
        refine lower_then_raise_z_core s gid gi d hreq hlen hempty _ ?_ ?_ ?_ ?_ ?_ ?_ ?_ u hok2
        · simp [Scene.modify_length]
        · intro j
          rw [objAt_modify_kind _ _ _ (setLowered true) (fun o => rfl)]
          try rw [objAt_modify_kind _ _ _ (setRestingOn _) (fun o => rfl)]
          rw [objAt_modify_kind _ _ _ (setPos _) (fun o => rfl)]
        · intro j
          rw [objAt_modify_grasped _ _ _ (setLowered true) (fun o => rfl)]
          try rw [objAt_modify_grasped _ _ _ (setRestingOn _) (fun o => rfl)]
          rw [objAt_modify_grasped _ _ _ (setPos _) (fun o => rfl)]
        · intro v
          rw [findByObjId_setLowered]
          try rw [findByObjId_setRestingOn]
          rw [findByObjId_setPos]
        · intro k
          rw [findByKind_setLowered]
          try rw [findByKind_setRestingOn]
          rw [findByKind_setPos]
        · first
          | exact stable_lower_chain3 _ _ _ _ hkind
          | exact stable_lower_chain2 _ _ _ hkind
        · rw [Scene.objAt_modify_self _ _ _ (by simpa [Scene.modify_length] using hlen)]
          simp
      | some ti =>
        try dsimp only at hok1
        split at hok1 <;>
        · simp only [Except.ok.injEq] at hok1
          subst hok1
          refine lower_then_raise_z_core s gid gi d hreq hlen hempty _ ?_ ?_ ?_ ?_ ?_ ?_ ?_
            u hok2
          · simp [Scene.modify_length]
          · intro j
            rw [objAt_modify_kind _ _ _ (setLowered true) (fun o => rfl)]
            try rw [objAt_modify_kind _ _ _ (setRestingOn _) (fun o => rfl)]
            rw [objAt_modify_kind _ _ _ (setPos _) (fun o => rfl)]
          · intro j
            rw [objAt_modify_grasped _ _ _ (setLowered true) (fun o => rfl)]
            try rw [objAt_modify_grasped _ _ _ (setRestingOn _) (fun o => rfl)]
            rw [objAt_modify_grasped _ _ _ (setPos _) (fun o => rfl)]
          · intro v
            rw [findByObjId_setLowered]
            try rw [findByObjId_setRestingOn]
            rw [findByObjId_setPos]
          · intro k
            rw [findByKind_setLowered]
            try rw [findByKind_setRestingOn]
            rw [findByKind_setPos]
          · first
            | exact stable_lower_chain3 _ _ _ _ hkind
            | exact stable_lower_chain2 _ _ _ hkind
          · rw [Scene.objAt_modify_self _ _ _ (by simpa [Scene.modify_length] using hlen)]
            simp
  exact ⟨hzu, fun hle => by rw [hzu]; exact hle⟩

/-- C8 (counterexample): in the standard initial controller state the raised,
empty grasper starts at z = 5/10; `lower_grasper` followed by `raise_grasper`
both succeed and leave it at z = 4500/10000 = 0.45 (the highest stable point
0.35 plus the 0.1 clearance), strictly below the starting height — refuting
the claimed monotonicity of a lower+raise cycle. -/
theorem C8_lower_raise_not_monotone :
    ∃ t u, lower_grasper stdInit none = .ok t ∧ raise_grasper t none = .ok u ∧
      (stdInit.scene.objAt 0).position.z = q 5 10 ∧
      (u.scene.objAt 0).position.z = q 4500 10000 ∧
      Q.le (stdInit.scene.objAt 0).position.z ((u.scene.objAt 0).position.z) = false :=
  ⟨_, _, rfl, rfl, rfl, rfl, rfl⟩

/-- C8 witness: the amended clearance theorem applied to the small scene's
raised, empty grasper. -/
theorem C8_lower_raise_clearance_witness :
    ∃ t u, lower_grasper smallInit none = .ok t ∧ raise_grasper t none = .ok u ∧
      (u.scene.objAt 0).position.z = findHighestStablePoint smallInit.scene + q 1 10 := by
  refine ⟨_, _, rfl, rfl, ?_⟩
  exact (C8_lower_raise_clearance smallInit none 0 rfl (by decide) rfl rfl rfl _ _ rfl rfl).1

theorem findIdx?_some_aux {α : Type} (p : α → Bool) (l : List α) (d : α) :
    ∀ (j s : Nat), List.findIdx? p l s = some j →
      s ≤ j ∧ j - s < l.length ∧ p (l.getD (j - s) d) = true := by
  induction l with
  | nil => intro j s h; simp [List.findIdx?] at h
  | cons b t ih =>
    intro j s h
    simp only [List.findIdx?] at h
    by_cases hb : p b = true
    · rw [if_pos hb] at h
      injection h with h'
      subst h'
      refine ⟨Nat.le_refl _, by simp, ?_⟩
      simpa [List.getD] using hb
    · rw [if_neg hb] at h
      obtain ⟨h1, h2, h3⟩ := ih j (s + 1) h
      have hjs : j - s = (j - (s + 1)) + 1 := by omega
      refine ⟨Nat.le_trans (Nat.le_succ s) h1, ?_, ?_⟩
      · rw [hjs]
        simpa using Nat.succ_lt_succ h2
      · rw [hjs]
        simpa [List.getD] using h3

/-- A successful id lookup returns an in-range index holding that id. -/
theorem findByObjId_spec (sc : Scene) (v : Int) (j : Nat) (h : sc.findByObjId v = some j) :
    j < sc.objects.length ∧ (sc.objAt j).tags.obj_id = some v := by
  unfold Scene.findByObjId at h
  obtain ⟨_, h2, h3⟩ := findIdx?_some_aux _ sc.objects dummyObject j 0 h
  simp only [Nat.sub_zero] at h2 h3
  exact ⟨h2, of_decide_eq_true h3⟩

/-- A successful kind lookup returns an in-range index holding that kind. -/
theorem findByKind_spec (sc : Scene) (k : String) (j : Nat) (h : sc.findByKind k = some j) :
    j < sc.objects.length ∧ (sc.objAt j).tags.kind = some k := by
  unfold Scene.findByKind at h
  obtain ⟨_, h2, h3⟩ := findIdx?_some_aux _ sc.objects dummyObject j 0 h
  simp only [Nat.sub_zero] at h2 h3
  exact ⟨h2, of_decide_eq_true h3⟩

/-- Kind lookup is unchanged by a `closed` update. -/
theorem findByKind_setClosed (sc : Scene) (i : Nat) (b : Bool) (k : String) :
    (sc.modifyObj i (setClosed b)).findByKind k = sc.findByKind k :=
  Scene.findByKind_modify sc i (setClosed b) rfl k

/-- Kind lookup is unchanged by a `grasped` update. -/
theorem findByKind_setGrasped (sc : Scene) (i : Nat) (v : Option Int) (k : String) :
    (sc.modifyObj i (setGrasped v)).findByKind k = sc.findByKind k :=
  Scene.findByKind_modify sc i (setGrasped v) rfl k

/-- Kind lookup is unchanged by a `grasped_by` update. -/
theorem findByKind_setGraspedBy (sc : Scene) (i : Nat) (v : Option Int) (k : String) :
    (sc.modifyObj i (setGraspedBy v)).findByKind k = sc.findByKind k :=
  Scene.findByKind_modify sc i (setGraspedBy v) rfl k

/-- An object updater that leaves the five link-relevant tags (`obj_id`,
`kind`, `grasped`, `grasped_by`, `closed`) untouched. -/
def presTags (f : PhysicalObject → PhysicalObject) : Prop :=
  ∀ o, (f o).tags.obj_id = o.tags.obj_id ∧ (f o).tags.kind = o.tags.kind ∧
    (f o).tags.grasped = o.tags.grasped ∧ (f o).tags.grasped_by = o.tags.grasped_by ∧
    (f o).tags.closed = o.tags.closed

theorem presTags_setPos (p : Point) : presTags (setPos p) :=
  fun _ => ⟨rfl, rfl, rfl, rfl, rfl⟩

theorem presTags_setRestingOn (v : Option Int) : presTags (setRestingOn v) :=
  fun _ => ⟨rfl, rfl, rfl, rfl, rfl⟩

theorem presTags_setLowered (b : Bool) : presTags (setLowered b) :=
  fun _ => ⟨rfl, rfl, rfl, rfl, rfl⟩

/-- Two scenes agreeing on length, on the grasper lookup and, pointwise, on the
five link-relevant tags. -/
def tagEquiv (a b : Scene) : Prop :=
  a.objects.length = b.objects.length ∧
  a.findByKind "grasper" = b.findByKind "grasper" ∧
  ∀ i, (a.objAt i).tags.obj_id = (b.objAt i).tags.obj_id ∧
    (a.objAt i).tags.kind = (b.objAt i).tags.kind ∧
    (a.objAt i).tags.grasped = (b.objAt i).tags.grasped ∧
    (a.objAt i).tags.grasped_by = (b.objAt i).tags.grasped_by ∧
    (a.objAt i).tags.closed = (b.objAt i).tags.closed

theorem tagEquiv_refl (a : Scene) : tagEquiv a a :=
  ⟨rfl, rfl, fun _ => ⟨rfl, rfl, rfl, rfl, rfl⟩⟩

/-- Modifying with a tag-preserving updater extends a tag equivalence. -/
theorem tagEquiv_modify_chain (x : Scene) (b : Scene) (i : Nat)
    (f : PhysicalObject → PhysicalObject) (hx : tagEquiv x b) (hf : presTags f) :
    tagEquiv (x.modifyObj i f) b := by
  obtain ⟨hlen, hkf, hfields⟩ := hx
  refine ⟨?_, ?_, ?_⟩
  · rw [Scene.modify_length]; exact hlen
  · rw [Scene.findByKind_modify x i f (hf _).2.1]; exact hkf
  · intro t
    refine ⟨?_, ?_, ?_, ?_, ?_⟩
    · rw [Scene.objAt_modify_proj x i t f (fun o => o.tags.obj_id) (fun o => (hf o).1)]
      exact (hfields t).1
    · rw [Scene.objAt_modify_proj x i t f (fun o => o.tags.kind) (fun o => (hf o).2.1)]
      exact (hfields t).2.1
    · rw [Scene.objAt_modify_proj x i t f (fun o => o.tags.grasped) (fun o => (hf o).2.2.1)]
      exact (hfields t).2.2.1
    · rw [Scene.objAt_modify_proj x i t f (fun o => o.tags.grasped_by)
        (fun o => (hf o).2.2.2.1)]
      exact (hfields t).2.2.2.1
    · rw [Scene.objAt_modify_proj x i t f (fun o => o.tags.closed) (fun o => (hf o).2.2.2.2)]
      exact (hfields t).2.2.2.2

/-- The grasped/grasped_by link invariant of a scene relative to a default
grasper record `d` and a distinguished grasper index `g`: `g` is the first
grasper-kind object and the only one; every object carries a distinct id; a
recorded default names `g`; an open grasper holds nothing; and the grasped /
grasped_by tags form a matched bidirectional pair anchored at `g`. -/
def linkInvAt (sc : Scene) (d : Option Nat) (g : Nat) : Prop :=
  sc.findByKind "grasper" = some g ∧
  (∀ i, i < sc.objects.length → ((sc.objAt i).tags.obj_id).isSome = true) ∧
  (∀ i, i < sc.objects.length → ∀ j, j < sc.objects.length → i ≠ j →
    (sc.objAt i).tags.obj_id ≠ (sc.objAt j).tags.obj_id) ∧
  (∀ i, i < sc.objects.length → (sc.objAt i).tags.kind = some "grasper" → i = g) ∧
  (d = none ∨ d = some g) ∧
  ((sc.objAt g).tags.closed.getD false = false → (sc.objAt g).tags.grasped = none) ∧
  (∀ i, i < sc.objects.length → (sc.objAt i).tags.grasped_by ≠ none →
    (sc.objAt i).tags.grasped_by = (sc.objAt g).tags.obj_id ∧
    (sc.objAt g).tags.grasped = (sc.objAt i).tags.obj_id) ∧
  ((sc.objAt g).tags.grasped ≠ none →
    ∃ i, i < sc.objects.length ∧
      (sc.objAt i).tags.obj_id = (sc.objAt g).tags.grasped ∧
      (sc.objAt i).tags.grasped_by = (sc.objAt g).tags.obj_id)

/-- The index the controller's "first grasper in the scene" search yields. -/
def graspIdx (s : CState) : Nat := (s.scene.findByKind "grasper").getD 0

/-- The link invariant of a controller state, anchored at the first
grasper-kind object. -/
def linkInv (s : CState) : Prop :=
  linkInvAt s.scene s.default_grasper (graspIdx s)

instance decExistsLt (n : Nat) (P : Nat → Prop) [DecidablePred P] :
    Decidable (∃ i, i < n ∧ P i) :=
  decidable_of_iff (∃ i ∈ List.range n, P i) (by simp [List.mem_range])

instance decLinkInvAt (sc : Scene) (d : Option Nat) (g : Nat) :
    Decidable (linkInvAt sc d g) := by
  unfold linkInvAt
  infer_instance

instance decLinkInv (s : CState) : Decidable (linkInv s) := by
  unfold linkInv
  infer_instance

theorem linkInv_of_linkInvAt (t : CState) (g : Nat)
    (h : linkInvAt t.scene t.default_grasper g) : linkInv t := by
  have hg : graspIdx t = g := by
    unfold graspIdx
    rw [h.1]
    rfl
  unfold linkInv
  rw [hg]
  exact h

/-- With the grasper empty, the pairing direction of the invariant forces every
`grasped_by` tag to be unset. -/
theorem linkInvAt_gb_none (sc : Scene) (d : Option Nat) (g : Nat)
    (hinv : linkInvAt sc d g) (hemp : (sc.objAt g).tags.grasped = none) :
    ∀ i, i < sc.objects.length → (sc.objAt i).tags.grasped_by = none := by
  intro i hi
  by_contra hne
  obtain ⟨_, h2⟩ := hinv.2.2.2.2.2.2.1 i hi hne
  have hsome := hinv.2.1 i hi
  rw [hemp] at h2
  rw [← h2] at hsome
  simp at hsome

/-- Toggling the grasper's `closed` tag alone preserves the link invariant,
provided an opening toggle happens on an empty grasper. -/
theorem linkInvAt_setClosed (sc : Scene) (d : Option Nat) (g : Nat) (b : Bool)
    (hinv : linkInvAt sc d g)
    (hoe : b = false → (sc.objAt g).tags.grasped = none) :
    linkInvAt (sc.modifyObj g (setClosed b)) (some g) g := by
  obtain ⟨hfk, hids, huniq, hone, _, _, hfwd, hbwd⟩ := hinv
  have hgn : g < sc.objects.length := (findByKind_spec sc "grasper" g hfk).1
  have hid : ∀ i, ((sc.modifyObj g (setClosed b)).objAt i).tags.obj_id
      = (sc.objAt i).tags.obj_id :=
    fun i => objAt_modify_obj_id sc g i (setClosed b) (fun o => rfl)
  have hkind : ∀ i, ((sc.modifyObj g (setClosed b)).objAt i).tags.kind
      = (sc.objAt i).tags.kind :=
    fun i => objAt_modify_kind sc g i (setClosed b) (fun o => rfl)
  have hgr : ∀ i, ((sc.modifyObj g (setClosed b)).objAt i).tags.grasped
      = (sc.objAt i).tags.grasped :=
    fun i => objAt_modify_grasped sc g i (setClosed b) (fun o => rfl)
  have hgb : ∀ i, ((sc.modifyObj g (setClosed b)).objAt i).tags.grasped_by
      = (sc.objAt i).tags.grasped_by :=
    fun i => objAt_modify_grasped_by sc g i (setClosed b) (fun o => rfl)
  have hcl : ((sc.modifyObj g (setClosed b)).objAt g).tags.closed = some b := by
    rw [Scene.objAt_modify_self sc g _ hgn, setClosed_closed]
  have hlen : (sc.modifyObj g (setClosed b)).objects.length = sc.objects.length :=
    Scene.modify_length sc g _
  refine ⟨?_, ?_, ?_, ?_, Or.inr rfl, ?_, ?_, ?_⟩
  · rw [findByKind_setClosed]; exact hfk
  · intro i hi; rw [hid i]; exact hids i (hlen ▸ hi)
  · intro i hi j hj hne; rw [hid i, hid j]; exact huniq i (hlen ▸ hi) j (hlen ▸ hj) hne
  · intro i hi hk; rw [hkind i] at hk; exact hone i (hlen ▸ hi) hk
  · intro hc
    rw [hcl] at hc
    rw [hgr g]
    exact hoe (by simpa using hc)
  · intro i hi hne
    rw [hgb i] at hne
    rw [hgb i, hid i, hid g, hgr g]
    exact hfwd i (hlen ▸ hi) hne
  · intro hne
    rw [hgr g] at hne
    obtain ⟨i, hi, h1, h2⟩ := hbwd hne
    refine ⟨i, by rw [hlen]; exact hi, ?_, ?_⟩
    · rw [hid i, hgr g]; exact h1
    · rw [hgb i, hid g]; exact h2

/-- The grasp update of `close_grasper` (set the grasper's `grasped`, the
target's `grasped_by`, then close) preserves the link invariant when the
grasper was open. -/
theorem linkInvAt_grasp (sc : Scene) (d : Option Nat) (g : Nat) (rid : Int) (ri : Nat)
    (hinv : linkInvAt sc d g)
    (hopen : (sc.objAt g).tags.closed.getD false = false)
    (hri : sc.findByObjId rid = some ri) :
    linkInvAt (((sc.modifyObj g (setGrasped (some rid))).modifyObj ri
        (setGraspedBy ((sc.objAt g).tags.obj_id))).modifyObj g (setClosed true))
      (some g) g := by
  have hemp : (sc.objAt g).tags.grasped = none := hinv.2.2.2.2.2.1 hopen
  have hgb0 := linkInvAt_gb_none sc d g hinv hemp
  obtain ⟨hfk, hids, huniq, hone, _, _, _, _⟩ := hinv
  have hgn : g < sc.objects.length := (findByKind_spec sc "grasper" g hfk).1
  obtain ⟨hrin, hrid⟩ := findByObjId_spec sc rid ri hri
  have hid : ∀ i, ((((sc.modifyObj g (setGrasped (some rid))).modifyObj ri
      (setGraspedBy ((sc.objAt g).tags.obj_id))).modifyObj g (setClosed true)).objAt i).tags.obj_id
      = (sc.objAt i).tags.obj_id := by
    intro i
    rw [objAt_modify_obj_id _ g i (setClosed true) (fun o => rfl),
        objAt_modify_obj_id _ ri i (setGraspedBy _) (fun o => rfl),
        objAt_modify_obj_id sc g i (setGrasped _) (fun o => rfl)]
  have hkind : ∀ i, ((((sc.modifyObj g (setGrasped (some rid))).modifyObj ri
      (setGraspedBy ((sc.objAt g).tags.obj_id))).modifyObj g (setClosed true)).objAt i).tags.kind
      = (sc.objAt i).tags.kind := by
    intro i
    rw [objAt_modify_kind _ g i (setClosed true) (fun o => rfl),
        objAt_modify_kind _ ri i (setGraspedBy _) (fun o => rfl),
        objAt_modify_kind sc g i (setGrasped _) (fun o => rfl)]
  have hgg : ((((sc.modifyObj g (setGrasped (some rid))).modifyObj ri
      (setGraspedBy ((sc.objAt g).tags.obj_id))).modifyObj g (setClosed true)).objAt g).tags.grasped
      = some rid := by
    rw [objAt_modify_grasped _ g g (setClosed true) (fun o => rfl),
        objAt_modify_grasped _ ri g (setGraspedBy _) (fun o => rfl),
        Scene.objAt_modify_self sc g _ hgn, setGrasped_grasped]
  have hgbT : ∀ i, ((((sc.modifyObj g (setGrasped (some rid))).modifyObj ri
      (setGraspedBy ((sc.objAt g).tags.obj_id))).modifyObj g (setClosed true)).objAt i).tags.grasped_by
      = if i = ri then (sc.objAt g).tags.obj_id else (sc.objAt i).tags.grasped_by := by
    intro i
    rw [objAt_modify_grasped_by _ g i (setClosed true) (fun o => rfl)]
    by_cases hir : i = ri
    · subst hir
      rw [Scene.objAt_modify_self _ i _ (by rw [Scene.modify_length]; exact hrin),
          setGraspedBy_grasped_by, if_pos rfl]
    · rw [Scene.objAt_modify_ne _ ri i _ hir,
          objAt_modify_grasped_by sc g i (setGrasped _) (fun o => rfl), if_neg hir]
  have hclT : ((((sc.modifyObj g (setGrasped (some rid))).modifyObj ri
      (setGraspedBy ((sc.objAt g).tags.obj_id))).modifyObj g (setClosed true)).objAt g).tags.closed
      = some true := by
    rw [Scene.objAt_modify_self _ g _
      (by rw [Scene.modify_length, Scene.modify_length]; exact hgn), setClosed_closed]
  have hlen : ((((sc.modifyObj g (setGrasped (some rid))).modifyObj ri
      (setGraspedBy ((sc.objAt g).tags.obj_id))).modifyObj g (setClosed true))).objects.length
      = sc.objects.length := by
    rw [Scene.modify_length, Scene.modify_length, Scene.modify_length]
  refine ⟨?_, ?_, ?_, ?_, Or.inr rfl, ?_, ?_, ?_⟩
  · rw [findByKind_setClosed, findByKind_setGraspedBy, findByKind_setGrasped]; exact hfk
  · intro i hi; rw [hid i]; exact hids i (hlen ▸ hi)
  · intro i hi j hj hne; rw [hid i, hid j]; exact huniq i (hlen ▸ hi) j (hlen ▸ hj) hne
  · intro i hi hk; rw [hkind i] at hk; exact hone i (hlen ▸ hi) hk
  · intro hc
    rw [hclT] at hc
    simp at hc
  · intro i hi hne
    by_cases hir : i = ri
    · subst hir
      refine ⟨?_, ?_⟩
      · rw [hgbT i, if_pos rfl, hid g]
      · rw [hgg, hid i, hrid]
    · rw [hgbT i, if_neg hir] at hne
      exact absurd (hgb0 i (hlen ▸ hi)) hne
  · intro _
    refine ⟨ri, by rw [hlen]; exact hrin, ?_, ?_⟩
    · rw [hid ri, hgg, hrid]
    · rw [hgbT ri, if_pos rfl, hid g]

/-- The release update of `open_grasper` (clear the target's `grasped_by`, the
grasper's `grasped`, then open) preserves the link invariant when the held
object's id resolves. -/
theorem linkInvAt_release (sc : Scene) (d : Option Nat) (g : Nat) (oid : Int) (oi : Nat)
    (hinv : linkInvAt sc d g)
    (hgr : (sc.objAt g).tags.grasped = some oid)
    (hoi : sc.findByObjId oid = some oi) :
    linkInvAt (((sc.modifyObj oi (setGraspedBy none)).modifyObj g
        (setGrasped none)).modifyObj g (setClosed false)) (some g) g := by
  obtain ⟨hfk, hids, huniq, hone, _, _, hfwd, _⟩ := hinv
  have hgn : g < sc.objects.length := (findByKind_spec sc "grasper" g hfk).1
  obtain ⟨hoin, hoid⟩ := findByObjId_spec sc oid oi hoi
  have hid : ∀ i, ((((sc.modifyObj oi (setGraspedBy none)).modifyObj g
      (setGrasped none)).modifyObj g (setClosed false)).objAt i).tags.obj_id
      = (sc.objAt i).tags.obj_id := by
    intro i
    rw [objAt_modify_obj_id _ g i (setClosed false) (fun o => rfl),
        objAt_modify_obj_id _ g i (setGrasped _) (fun o => rfl),
        objAt_modify_obj_id sc oi i (setGraspedBy _) (fun o => rfl)]
  have hkind : ∀ i, ((((sc.modifyObj oi (setGraspedBy none)).modifyObj g
      (setGrasped none)).modifyObj g (setClosed false)).objAt i).tags.kind
      = (sc.objAt i).tags.kind := by
    intro i
    rw [objAt_modify_kind _ g i (setClosed false) (fun o => rfl),
        objAt_modify_kind _ g i (setGrasped _) (fun o => rfl),
        objAt_modify_kind sc oi i (setGraspedBy _) (fun o => rfl)]
  have hgg : ((((sc.modifyObj oi (setGraspedBy none)).modifyObj g
      (setGrasped none)).modifyObj g (setClosed false)).objAt g).tags.grasped = none := by
    rw [objAt_modify_grasped _ g g (setClosed false) (fun o => rfl),
        Scene.objAt_modify_self _ g _ (by rw [Scene.modify_length]; exact hgn),
        setGrasped_grasped]
  have hgbT : ∀ i, ((((sc.modifyObj oi (setGraspedBy none)).modifyObj g
      (setGrasped none)).modifyObj g (setClosed false)).objAt i).tags.grasped_by
      = if i = oi then none else (sc.objAt i).tags.grasped_by := by
    intro i
    rw [objAt_modify_grasped_by _ g i (setClosed false) (fun o => rfl),
        objAt_modify_grasped_by _ g i (setGrasped _) (fun o => rfl)]
    by_cases hio : i = oi
    · subst hio
      rw [Scene.objAt_modify_self sc i _ hoin, setGraspedBy_grasped_by, if_pos rfl]
    · rw [Scene.objAt_modify_ne sc oi i _ hio, if_neg hio]
  have hlen : ((((sc.modifyObj oi (setGraspedBy none)).modifyObj g
      (setGrasped none)).modifyObj g (setClosed false))).objects.length
      = sc.objects.length := by
    rw [Scene.modify_length, Scene.modify_length, Scene.modify_length]
  refine ⟨?_, ?_, ?_, ?_, Or.inr rfl, ?_, ?_, ?_⟩
  · rw [findByKind_setClosed, findByKind_setGrasped, findByKind_setGraspedBy]; exact hfk
  · intro i hi; rw [hid i]; exact hids i (hlen ▸ hi)
  · intro i hi j hj hne; rw [hid i, hid j]; exact huniq i (hlen ▸ hi) j (hlen ▸ hj) hne
  · intro i hi hk; rw [hkind i] at hk; exact hone i (hlen ▸ hi) hk
  · intro _
    exact hgg
  · intro i hi hne
    by_cases hio : i = oi
    · rw [hgbT i, if_pos hio] at hne
      exact absurd rfl hne
    · rw [hgbT i, if_neg hio] at hne
      obtain ⟨h1, h2⟩ := hfwd i (hlen ▸ hi) hne
      have hoeq : (sc.objAt i).tags.obj_id = (sc.objAt oi).tags.obj_id := by
        rw [← h2, hgr, hoid]
      exact absurd hoeq (huniq i (hlen ▸ hi) oi hoin hio)
  · intro hne
    rw [hgg] at hne
    exact absurd rfl hne

/-- The link invariant transfers along a tag equivalence of scenes. -/
theorem linkInvAt_tagEquiv (sc T : Scene) (d : Option Nat) (g : Nat)
    (hinv : linkInvAt sc d g) (he : tagEquiv T sc) (d' : Option Nat)
    (hd : d' = none ∨ d' = some g) : linkInvAt T d' g := by
  obtain ⟨hfk, hids, huniq, hone, _, hoe, hfwd, hbwd⟩ := hinv
  obtain ⟨hlen, hkf, hfields⟩ := he
  refine ⟨?_, ?_, ?_, ?_, hd, ?_, ?_, ?_⟩
  · rw [hkf]; exact hfk
  · intro i hi; rw [(hfields i).1]; exact hids i (hlen ▸ hi)
  · intro i hi j hj hne
    rw [(hfields i).1, (hfields j).1]
    exact huniq i (hlen ▸ hi) j (hlen ▸ hj) hne
  · intro i hi hk
    rw [(hfields i).2.1] at hk
    exact hone i (hlen ▸ hi) hk
  · intro hc
    rw [(hfields g).2.2.2.2] at hc
    rw [(hfields g).2.2.1]
    exact hoe hc
  · intro i hi hne
    rw [(hfields i).2.2.2.1] at hne
    rw [(hfields i).2.2.2.1, (hfields g).1, (hfields g).2.2.1, (hfields i).1]
    exact hfwd i (hlen ▸ hi) hne
  · intro hne
    rw [(hfields g).2.2.1] at hne
    obtain ⟨i, hi, h1, h2⟩ := hbwd hne
    refine ⟨i, by rw [hlen]; exact hi, ?_, ?_⟩
    · rw [(hfields i).1, (hfields g).2.2.1]; exact h1
    · rw [(hfields i).2.2.2.1, (hfields g).1]; exact h2

/-- Under the link invariant, a successful grasper resolution returns the
distinguished grasper index and records it as the default. -/
theorem requireGrasper_link (s : CState) (gid : Option Int) (gi : Nat) (s₁ : CState) (g : Nat)
    (hinv : linkInvAt s.scene s.default_grasper g)
    (h : s.requireGrasper gid = .ok (gi, s₁)) :
    gi = g ∧ s₁ = ⟨s.scene, s.grasper_distance_tolerance, some g⟩ := by
  unfold CState.requireGrasper at h
  cases gid with
  | some v =>
    dsimp only at h
    cases hf : s.scene.findByObjId v with
    | none => rw [hf] at h; cases h
    | some j =>
      rw [hf] at h
      dsimp only at h
      by_cases hk : (s.scene.objAt j).tags.kind ≠ some "grasper"
      · rw [if_pos hk] at h; cases h
      · rw [if_neg hk] at h
        have hjg : j = g :=
          hinv.2.2.2.1 j (findByObjId_spec s.scene v j hf).1 (not_not.mp hk)
        simp only [Except.ok.injEq, Prod.mk.injEq] at h
        obtain ⟨h1, h2⟩ := h
        have hdv : s.default_grasper.getD j = g := by
          cases hinv.2.2.2.2.1 with
          | inl hn => rw [hn]; exact hjg
          | inr hs => rw [hs]; rfl
        refine ⟨h1 ▸ hjg, ?_⟩
        rw [← h2, hdv]
  | none =>
    dsimp only at h
    cases hd : s.default_grasper with
    | some dg =>
      rw [hd] at h
      dsimp only at h
      simp only [Except.ok.injEq, Prod.mk.injEq] at h
      obtain ⟨h1, h2⟩ := h
      have hdg : dg = g := by
        cases hinv.2.2.2.2.1 with
        | inl hn => rw [hn] at hd; cases hd
        | inr hs => rw [hs] at hd; exact (Option.some.injEq _ _ ▸ hd).symm ▸ rfl
      subst h2
      refine ⟨h1 ▸ hdg, ?_⟩
      rw [show (⟨s.scene, s.grasper_distance_tolerance, some g⟩ : CState)
        = ⟨s.scene, s.grasper_distance_tolerance, s.default_grasper⟩ by rw [hd, hdg]]
    | none =>
      rw [hd] at h
      dsimp only at h
      rw [hinv.1] at h
      dsimp only at h
      simp only [Except.ok.injEq, Prod.mk.injEq] at h
      obtain ⟨h1, h2⟩ := h
      exact ⟨h1.symm, h2.symm⟩

/-- `close_grasper` preserves the link invariant. -/
theorem close_linkInv (s : CState) (gid : Option Int) (t : CState)
    (hinv : linkInv s) (h : close_grasper s gid = .ok t) : linkInv t := by
  unfold close_grasper at h
  cases hreq : s.requireGrasper gid with
  | error e => rw [hreq] at h; cases h
  | ok p =>
    obtain ⟨gi, s₁⟩ := p
    obtain ⟨hgi, hs₁⟩ := requireGrasper_link s gid gi s₁ (graspIdx s) hinv hreq
    subst hgi
    subst hs₁
    rw [hreq] at h
    dsimp only at h
    cases hcl : (s.scene.objAt (graspIdx s)).tags.closed.getD false with
    | true => rw [hcl, if_pos rfl] at h; cases h
    | false =>
      rw [hcl, if_neg (by simp)] at h
      cases hlow : (s.scene.objAt (graspIdx s)).tags.lowered.getD false with
      | false =>
        rw [hlow, if_neg (by simp)] at h
        simp only [Except.ok.injEq] at h
        subst h
        exact linkInv_of_linkInvAt _ (graspIdx s)
          (linkInvAt_setClosed s.scene s.default_grasper (graspIdx s) true hinv
            (fun hf => nomatch hf))
      | true =>
        rw [hlow, if_pos rfl] at h
        cases hro : (s.scene.objAt (graspIdx s)).tags.resting_on with
        | none =>
          rw [hro] at h
          try dsimp only at h
          simp only [Except.ok.injEq] at h
          subst h
          exact linkInv_of_linkInvAt _ (graspIdx s)
            (linkInvAt_setClosed s.scene s.default_grasper (graspIdx s) true hinv
              (fun hf => nomatch hf))
        | some rid =>
          rw [hro] at h
          try dsimp only at h
          by_cases hr0 : rid ≠ 0
          · rw [if_pos hr0] at h
            cases hri : s.scene.findByObjId rid with
            | none => rw [hri] at h; cases h
            | some ri =>
              rw [hri] at h
              try dsimp only at h
              cases hgr2 : (s.scene.objAt ri).tags.graspable.getD false with
              | false =>
                rw [hgr2, if_neg (by simp)] at h
                simp only [Except.ok.injEq] at h
                subst h
                exact linkInv_of_linkInvAt _ (graspIdx s)
                  (linkInvAt_setClosed s.scene s.default_grasper (graspIdx s) true hinv
                    (fun hf => nomatch hf))
              | true =>
                rw [hgr2, if_pos rfl] at h
                try dsimp only at h
                rw [Scene.objAt_modify_self s.scene (graspIdx s) _
                    (findByKind_spec s.scene "grasper" (graspIdx s) hinv.1).1,
                  setGrasped_obj_id] at h
                simp only [Except.ok.injEq] at h
                subst h
                exact linkInv_of_linkInvAt _ (graspIdx s)
                  (linkInvAt_grasp s.scene s.default_grasper (graspIdx s) rid ri hinv hcl hri)
          · rw [if_neg hr0] at h
            simp only [Except.ok.injEq] at h
            subst h
            exact linkInv_of_linkInvAt _ (graspIdx s)
              (linkInvAt_setClosed s.scene s.default_grasper (graspIdx s) true hinv
                (fun hf => nomatch hf))

/-- `open_grasper` preserves the link invariant. -/
theorem open_linkInv (s : CState) (gid : Option Int) (t : CState)
    (hinv : linkInv s) (h : open_grasper s gid = .ok t) : linkInv t := by
  unfold open_grasper at h
  cases hreq : s.requireGrasper gid with
  | error e => rw [hreq] at h; cases h
  | ok p =>
    obtain ⟨gi, s₁⟩ := p
    obtain ⟨hgi, hs₁⟩ := requireGrasper_link s gid gi s₁ (graspIdx s) hinv hreq
    subst hgi
    subst hs₁
    rw [hreq] at h
    dsimp only at h
    cases hcl : (s.scene.objAt (graspIdx s)).tags.closed.getD false with
    | false => rw [hcl, if_pos (show (!false) = true from rfl)] at h; cases h
    | true =>
      rw [hcl, if_neg (by simp)] at h
      cases hgr : (s.scene.objAt (graspIdx s)).tags.grasped with
      | none =>
        rw [hgr] at h
        dsimp only at h
        simp only [Except.ok.injEq] at h
        subst h
        exact linkInv_of_linkInvAt _ (graspIdx s)
          (linkInvAt_setClosed s.scene s.default_grasper (graspIdx s) false hinv
            (fun _ => hgr))
      | some oid =>
        rw [hgr] at h
        dsimp only at h
        cases hoi : s.scene.findByObjId oid with
        | none => rw [hoi] at h; cases h
        | some oi =>
          rw [hoi] at h
          try dsimp only at h
          cases hlow : (s.scene.objAt (graspIdx s)).tags.lowered.getD false with
          | false => rw [hlow, if_pos (show (!false) = true from rfl)] at h; cases h
          | true =>
            rw [hlow, if_neg (by simp)] at h
            cases hro : (s.scene.objAt oi).tags.resting_on with
            | none => rw [hro] at h; cases h
            | some rid =>
              rw [hro] at h
              try dsimp only at h
              cases hrr : s.scene.findByObjId rid with
              | none => rw [hrr] at h; cases h
              | some ri =>
                rw [hrr] at h
                try dsimp only at h
                cases hsup : (s.scene.objAt ri).can_support (s.scene.objAt oi) with
                | false => rw [hsup, if_pos (show (!false) = true from rfl)] at h; cases h
                | true =>
                  rw [hsup, if_neg (by simp)] at h
                  by_cases hgb : (s.scene.objAt oi).tags.grasped_by
                      ≠ (s.scene.objAt (graspIdx s)).tags.obj_id
                  · rw [if_pos hgb] at h; cases h
                  · rw [if_neg hgb] at h
                    simp only [Except.ok.injEq] at h
                    subst h
                    exact linkInv_of_linkInvAt _ (graspIdx s)
                      (linkInvAt_release s.scene s.default_grasper (graspIdx s) oid oi hinv
                        hgr hoi)

/-- A successful `move_grasper` goes through grasper resolution and keeps the
resolved default. -/
theorem move_shape (s : CState) (x y : Option Q) (gid : Option Int) (t : CState)
    (h : move_grasper s x y gid = .ok t) :
    ∃ gi s₁, s.requireGrasper gid = .ok (gi, s₁) ∧ t.default_grasper = s₁.default_grasper := by
  unfold move_grasper at h
  cases hreq : s.requireGrasper gid with
  | error e => rw [hreq] at h; cases h
  | ok p =>
    obtain ⟨gi, s₁⟩ := p
    rw [hreq] at h
    try dsimp only at h
    refine ⟨gi, s₁, rfl, ?_⟩
    repeat' split at h
    all_goals first
      | (simp only [Except.ok.injEq] at h; subst h; rfl)
      | cases h

/-- A successful `lower_grasper` goes through grasper resolution and keeps the
resolved default. -/
theorem lower_shape (s : CState) (gid : Option Int) (t : CState)
    (h : lower_grasper s gid = .ok t) :
    ∃ gi s₁, s.requireGrasper gid = .ok (gi, s₁) ∧ t.default_grasper = s₁.default_grasper := by
  unfold lower_grasper at h
  cases hreq : s.requireGrasper gid with
  | error e => rw [hreq] at h; cases h
  | ok p =>
    obtain ⟨gi, s₁⟩ := p
    rw [hreq] at h
    try dsimp only at h
    refine ⟨gi, s₁, rfl, ?_⟩
    repeat' split at h
    all_goals first
      | (simp only [Except.ok.injEq] at h; subst h; rfl)
      | cases h

/-- A successful `raise_grasper` goes through grasper resolution and keeps the
resolved default. -/
theorem raise_shape (s : CState) (gid : Option Int) (t : CState)
    (h : raise_grasper s gid = .ok t) :
    ∃ gi s₁, s.requireGrasper gid = .ok (gi, s₁) ∧ t.default_grasper = s₁.default_grasper := by
  unfold raise_grasper at h
  cases hreq : s.requireGrasper gid with
  | error e => rw [hreq] at h; cases h
  | ok p =>
    obtain ⟨gi, s₁⟩ := p
    rw [hreq] at h
    try dsimp only at h
    refine ⟨gi, s₁, rfl, ?_⟩
    repeat' split at h
    all_goals first
      | (simp only [Except.ok.injEq] at h; subst h; rfl)
      | cases h

/-- `move_grasper` never touches the link-relevant tags of any object. -/
theorem move_keepsTags (s : CState) (x y : Option Q) (gid : Option Int) (t : CState)
    (h : move_grasper s x y gid = .ok t) : tagEquiv t.scene s.scene := by
  unfold move_grasper at h
  cases hreq : s.requireGrasper gid with
  | error e => rw [hreq] at h; cases h
  | ok p =>
    obtain ⟨gi, s₁⟩ := p
    obtain ⟨d, hd⟩ := requireGrasper_ok_shape s gid gi s₁ hreq
    subst hd
    rw [hreq] at h
    try dsimp only at h
    repeat' split at h
    all_goals first
      | (simp only [Except.ok.injEq] at h; subst h;
         repeat first
           | exact tagEquiv_refl _
           | refine tagEquiv_modify_chain _ _ _ _ ?_ (presTags_setPos _)
           | refine tagEquiv_modify_chain _ _ _ _ ?_ (presTags_setRestingOn _)
           | refine tagEquiv_modify_chain _ _ _ _ ?_ (presTags_setLowered _))
      | cases h

/-- `lower_grasper` never touches the link-relevant tags of any object. -/
theorem lower_keepsTags (s : CState) (gid : Option Int) (t : CState)
    (h : lower_grasper s gid = .ok t) : tagEquiv t.scene s.scene := by
  unfold lower_grasper at h
  cases hreq : s.requireGrasper gid with
  | error e => rw [hreq] at h; cases h
  | ok p =>
    obtain ⟨gi, s₁⟩ := p
    obtain ⟨d, hd⟩ := requireGrasper_ok_shape s gid gi s₁ hreq
    subst hd
    rw [hreq] at h
    try dsimp only at h
    repeat' split at h
    all_goals first
      | (simp only [Except.ok.injEq] at h; subst h;
         repeat first
           | exact tagEquiv_refl _
           | refine tagEquiv_modify_chain _ _ _ _ ?_ (presTags_setPos _)
           | refine tagEquiv_modify_chain _ _ _ _ ?_ (presTags_setRestingOn _)
           | refine tagEquiv_modify_chain _ _ _ _ ?_ (presTags_setLowered _))
      | cases h

/-- `raise_grasper` never touches the link-relevant tags of any object. -/
theorem raise_keepsTags (s : CState) (gid : Option Int) (t : CState)
    (h : raise_grasper s gid = .ok t) : tagEquiv t.scene s.scene := by
  unfold raise_grasper at h
  cases hreq : s.requireGrasper gid with
  | error e => rw [hreq] at h; cases h
  | ok p =>
    obtain ⟨gi, s₁⟩ := p
    obtain ⟨d, hd⟩ := requireGrasper_ok_shape s gid gi s₁ hreq
    subst hd
    rw [hreq] at h
    try dsimp only at h
    repeat' split at h
    all_goals first
      | (simp only [Except.ok.injEq] at h; subst h;
         repeat first
           | exact tagEquiv_refl _
           | refine tagEquiv_modify_chain _ _ _ _ ?_ (presTags_setPos _)
           | refine tagEquiv_modify_chain _ _ _ _ ?_ (presTags_setRestingOn _)
           | refine tagEquiv_modify_chain _ _ _ _ ?_ (presTags_setLowered _))
      | cases h

/-- `move_grasper` preserves the link invariant. -/
theorem move_linkInv (s : CState) (x y : Option Q) (gid : Option Int) (t : CState)
    (hinv : linkInv s) (h : move_grasper s x y gid = .ok t) : linkInv t := by
  obtain ⟨gi, s₁, hreq, hdef⟩ := move_shape s x y gid t h
  obtain ⟨hgi, hs₁⟩ := requireGrasper_link s gid gi s₁ (graspIdx s) hinv hreq
  refine linkInv_of_linkInvAt t (graspIdx s) ?_
  refine linkInvAt_tagEquiv s.scene t.scene s.default_grasper (graspIdx s) hinv
    (move_keepsTags s x y gid t h) t.default_grasper ?_
  rw [hdef, hs₁]
  exact Or.inr rfl

/-- `lower_grasper` preserves the link invariant. -/
theorem lower_linkInv (s : CState) (gid : Option Int) (t : CState)
    (hinv : linkInv s) (h : lower_grasper s gid = .ok t) : linkInv t := by
  obtain ⟨gi, s₁, hreq, hdef⟩ := lower_shape s gid t h
  obtain ⟨hgi, hs₁⟩ := requireGrasper_link s gid gi s₁ (graspIdx s) hinv hreq
  refine linkInv_of_linkInvAt t (graspIdx s) ?_
  refine linkInvAt_tagEquiv s.scene t.scene s.default_grasper (graspIdx s) hinv
    (lower_keepsTags s gid t h) t.default_grasper ?_
  rw [hdef, hs₁]
  exact Or.inr rfl

/-- `raise_grasper` preserves the link invariant. -/
theorem raise_linkInv (s : CState) (gid : Option Int) (t : CState)
    (hinv : linkInv s) (h : raise_grasper s gid = .ok t) : linkInv t := by
  obtain ⟨gi, s₁, hreq, hdef⟩ := raise_shape s gid t h
  obtain ⟨hgi, hs₁⟩ := requireGrasper_link s gid gi s₁ (graspIdx s) hinv hreq
  refine linkInv_of_linkInvAt t (graspIdx s) ?_
  refine linkInvAt_tagEquiv s.scene t.scene s.default_grasper (graspIdx s) hinv
    (raise_keepsTags s gid t h) t.default_grasper ?_
  rw [hdef, hs₁]
  exact Or.inr rfl

/-- Every successful command preserves the link invariant. -/
theorem stepCmd_linkInv (c : Cmd) (s t : CState) (hinv : linkInv s)
    (h : stepCmd c s = .ok t) : linkInv t := by
  cases c with
  | closeC gid => exact close_linkInv s gid t hinv h
  | openC gid => exact open_linkInv s gid t hinv h
  | moveC x y gid => exact move_linkInv s x y gid t hinv h
  | lowerC gid => exact lower_linkInv s gid t hinv h
  | raiseC gid => exact raise_linkInv s gid t hinv h

/-- The link invariant holds after every successful command sequence. -/
theorem runOk_linkInv (cs : List Cmd) : ∀ s t, linkInv s → runOk s cs = some t → linkInv t := by
  induction cs with
  | nil =>
    intro s t hinv h
    cases h
    exact hinv
  | cons c cs ih =>
    intro s t hinv h
    unfold runOk at h
    cases hstep : stepCmd c s with
    | error e => rw [hstep] at h; cases h
    | ok s' =>
      rw [hstep] at h
      exact ih s' t (stepCmd_linkInv c s s' hinv hstep) h

/-- The per-command link-field discipline: commands other than close/open
leave every object's `grasped` and `grasped_by` tags untouched. -/
def linkOnly (c : Cmd) (s t : CState) : Prop :=
  match c with
  | .closeC _ => True
  | .openC _ => True
  | _ => ∀ i, (t.scene.objAt i).tags.grasped = (s.scene.objAt i).tags.grasped ∧
      (t.scene.objAt i).tags.grasped_by = (s.scene.objAt i).tags.grasped_by

/-- The claim's bidirectional pairing, quantified over all object/grasper
pairs of a scene: an object points back at a grasper exactly when that grasper
points at the object. -/
def pairingAllB (sc : Scene) : Bool :=
  (List.range sc.objects.length).all fun i =>
    (List.range sc.objects.length).all fun j =>
      !((sc.objAt j).tags.kind == some "grasper") ||
        ((decide ((sc.objAt i).tags.grasped_by ≠ none)
            && ((sc.objAt i).tags.grasped_by == (sc.objAt j).tags.obj_id))
          == (decide ((sc.objAt j).tags.grasped ≠ none)
            && ((sc.objAt j).tags.grasped == (sc.objAt i).tags.obj_id)))

/-- A consistent scene with two graspers: grasper 0 holds block 2 (closed,
link matched in both directions), grasper 1 is open, lowered and resting on
block 2. -/
def twoGraspScene : Scene :=
  ⟨[⟨make_grasper (q 5 100) (Q.ofInt 1), (230, 230, 0),
     Point.mk (Q.ofInt 0) (Q.ofInt 0) (q 5 10),
     { kind := some "grasper", graspable := some false, can_support := some false,
       closed := some true, grasped := some 2, obj_id := some 0 }⟩,
    ⟨make_grasper (q 5 100) (Q.ofInt 1), (230, 230, 0),
     Point.mk (q 2 10) (Q.ofInt 0) (Q.ofInt 0),
     { kind := some "grasper", graspable := some false, can_support := some false,
       lowered := some true, resting_on := some 2, obj_id := some 1 }⟩,
    ⟨make_block (q 1 10) (q 1 10) (q 1 10), (255, 0, 0),
     Point.mk (q 2 10) (Q.ofInt 0) (Q.ofInt 0),
     { kind := some "block", graspable := some true, can_support := some true,
       grasped_by := some 0, obj_id := some 2 }⟩]⟩

/-- C1 (counterexample): with two graspers the bidirectional pairing is not
preserved.  In `twoGraspScene` the pairing holds, and `close_grasper` on the
second grasper succeeds (it is open, lowered and resting on the graspable
block 2), but it overwrites the block's `grasped_by` with grasper 1's id while
grasper 0 still holds the block — afterwards grasper 0's `grasped` names an
object that no longer points back. -/
theorem C1_pairing_not_preserved :
    pairingAllB twoGraspScene = true ∧
    ∃ t, close_grasper (initController twoGraspScene) (some 1) = .ok t ∧
      pairingAllB t.scene = false :=
  ⟨rfl, _, rfl, rfl⟩

/-- C1 (amended): in states with a single grasper, distinct object ids, an
open grasper holding nothing, and matched bidirectional grasped/grasped_by
links (`linkInv`), every successful command sequence maintains the invariant
after each command, and commands other than `close_grasper` / `open_grasper`
never modify any `grasped` or `grasped_by` tag. -/
theorem C1_link_invariant (s : CState) (hinv : linkInv s) :
    (∀ cs t, runOk s cs = some t → linkInv t) ∧
    (∀ c t, stepCmd c s = .ok t → linkOnly c s t) := by
  constructor
  · intro cs t h
    exact runOk_linkInv cs s t hinv h
  · intro c t h
    cases c with
    | closeC gid => exact trivial
    | openC gid => exact trivial
    | moveC x y gid =>
      intro i
      have he := move_keepsTags s x y gid t h
      exact ⟨(he.2.2 i).2.2.1, (he.2.2 i).2.2.2.1⟩
    | lowerC gid =>
      intro i
      have he := lower_keepsTags s gid t h
      exact ⟨(he.2.2 i).2.2.1, (he.2.2 i).2.2.2.1⟩
    | raiseC gid =>
      intro i
      have he := raise_keepsTags s gid t h
      exact ⟨(he.2.2 i).2.2.1, (he.2.2 i).2.2.2.1⟩

/-- C1 witness: the amended invariant theorem applied to the small scene and
a successful lower/close/raise sequence. -/
theorem C1_link_invariant_witness :
    linkInv smallInit ∧
    ∃ t, runOk smallInit [Cmd.lowerC none, Cmd.closeC none, Cmd.raiseC none] = some t ∧
      linkInv t := by
  refine ⟨by decide, _, rfl, ?_⟩
  exact (C1_link_invariant smallInit (by decide)).1
    [Cmd.lowerC none, Cmd.closeC none, Cmd.raiseC none] _ rfl
